import Mathlib

/-!
Lead-capture collector (`data-collector.js`) and traffic tracker
(`assets/js/traffic_tracker.js`): delivery pipeline, form-type classification, contact
extraction, device detection, page views, scroll depth and the visitor-save debounce.

A shallow embedding of the `DataCollector` class of `data-collector.js` and of the
listeners of `traffic_tracker.js`.

* JavaScript values read from form payloads are strings or `null`/`undefined`;
  they are `Option String` here, and `truthy` is JavaScript truthiness on them.
* Host facilities the methods call (the document-store SDK, `fetch`,
  `localStorage`, `setTimeout`, `String.prototype.toLowerCase`, the clock) are
  explicit inputs: outcome oracles and values read from the environment.
* An `async` method returns its settlement (`resolved`/`rejected`) together with
  the ordered trace of the effects it performed and the resulting local storage.
-/

namespace DataCollector

/-! ## JavaScript values -/

/-- JavaScript truthiness of a string-or-null value: `null`, `undefined` and `''` are falsy. -/
def truthy : Option String → Bool
  | some s => s != ""
  | none => false

/-- The JavaScript expression `a || b` on string-or-null values. -/
def jsOr (a b : Option String) : Option String :=
  if truthy a then a else b

/-- The values `Math.round` can return: `NaN`, an infinity, or an integer. -/
inductive JsNumber where
  | nan
  | negInf
  | fin (n : Int)
  | posInf
  deriving DecidableEq, Repr

/-- The comparison `a > b` on numbers; it is false whenever an operand is `NaN`. -/
def JsNumber.gt : JsNumber → JsNumber → Bool
  | .nan, _ => false
  | _, .nan => false
  | .posInf, .posInf => false
  | .posInf, _ => true
  | .negInf, _ => false
  | .fin _, .posInf => false
  | .fin _, .negInf => true
  | .fin a, .fin b => decide (b < a)

/-- The comparison `a >= b` on numbers; it is false whenever an operand is `NaN`. -/
def JsNumber.ge : JsNumber → JsNumber → Bool
  | .nan, _ => false
  | _, .nan => false
  | .posInf, _ => true
  | .negInf, .negInf => true
  | .negInf, _ => false
  | .fin _, .posInf => false
  | .fin _, .negInf => true
  | .fin a, .fin b => decide (b ≤ a)

/-- The comparison `a < b` on numbers. -/
def JsNumber.lt (a b : JsNumber) : Bool := b.gt a

/-- The expression `Math.round((scrollY / height) * 100)` of both scroll listeners, where
`height` is `document.body.scrollHeight - window.innerHeight`.  With `height = 0` the
division gives `NaN` for `0 / 0` and an infinity of the sign of `scrollY` otherwise, and
neither the product nor `Math.round` changes that.  With `height ≠ 0` the result is the
integer `roundedPercent scrollY height` computed by the host in double precision. -/
def scrollPercentOf (roundedPercent : Int → Int → Int) (scrollY height : Int) : JsNumber :=
  if height = 0 then
    if scrollY = 0 then .nan else if 0 < scrollY then .posInf else .negInf
  else .fin (roundedPercent scrollY height)

/-! ## Collector state -/

/-- The `behavior` counters of `visitorData`. -/
structure Behavior where
  pageViews : Nat := 0
  timeOnSite : Nat := 0
  scrollDepth : JsNumber := .fin 0
  formInteractions : Nat := 0
  buttonClicks : Nat := 0
  deriving DecidableEq, Repr

/-- The fields of `visitorData` that the methods read or write. -/
structure VisitorData where
  sessionId : String
  name : Option String := none
  phone : Option String := none
  email : Option String := none
  behavior : Behavior := {}
  deriving DecidableEq, Repr

/-- The instance fields of `DataCollector`; `db` records whether `this.db` is non-null. -/
structure Collector where
  db : Bool := false
  sessionId : String
  visitorData : VisitorData
  consentGiven : Bool := false
  pageViewTracked : Bool := false
  formSubmissionInProgress : Bool := false
  trackingInitialized : Bool := false
  lastSaveTime : Option Nat := none
  deriving DecidableEq, Repr

/-- The state the constructor builds before `init()` runs. -/
def Collector.new (sessionId : String) : Collector :=
  { sessionId := sessionId, visitorData := { sessionId := sessionId } }

/-- Lines 26-47 of `init()`, which run without suspension once the store SDK has answered:
the store handle, the consent flag and the initialisation guard.  `initialized` is the result
of `firebaseConfig.initialize()` and `database` tells whether `getDatabase()` gave a handle.
The listener set-up and the first page view (lines 49-56) come after it. -/
def Collector.init (c : Collector) (initialized : Bool) (database : Bool) : Collector :=
  let c1 := if initialized then { c with db := database } else c
  let c2 := { c1 with consentGiven := true }
  if c2.trackingInitialized then c2 else { c2 with trackingInitialized := true }

/-! ## `saveFormSubmission` -/

/-- The properties of the `formData` argument that `saveFormSubmission` reads. -/
structure FormPayload where
  name : Option String := none
  fname : Option String := none
  phone : Option String := none
  mobile : Option String := none
  modal_my_mobile2 : Option String := none
  modal_dg_mobile : Option String := none
  email : Option String := none
  mail : Option String := none
  source : Option String := none
  formType : Option String := none
  deriving DecidableEq, Repr

/-- The record written to the stores (`submissionData`). -/
structure SubmissionData where
  name : Option String
  phone : Option String
  email : Option String
  timestamp : String
  sessionId : String
  source : Option String
  formType : Option String
  deriving DecidableEq, Repr

/-- What `localStorage.getItem('birla_pending_submissions')` holds: nothing, the JSON text
of an array of submissions, or text from which `JSON.parse(..)` followed by `.push(..)` throws. -/
inductive StoredItem where
  | absent
  | array (q : List SubmissionData)
  | unusable
  deriving DecidableEq, Repr

/-- Browser local storage as seen through the pending-submissions key. -/
structure LocalStorage where
  item : StoredItem := .absent
  getThrows : Bool := false
  setThrows : Bool := false
  deriving DecidableEq, Repr

/-- The pending queue a reader of the storage key obtains. -/
def LocalStorage.pending (s : LocalStorage) : List SubmissionData :=
  match s.item with
  | .array q => q
  | _ => []

/-- The environment of one call: the clock, the outcome of the `attempt`-th primary write,
the outcome of the secondary HTTP write, and local storage. -/
structure Env where
  now : String
  primaryOk : Nat → Bool
  secondaryOk : Bool
  storage : LocalStorage

/-- Observable effects, in the order performed. -/
inductive Effect where
  | primaryWrite (attempt : Nat) (d : SubmissionData)
  | delay (ms : Nat)
  | secondaryWrite (d : SubmissionData)
  | storageWrite (q : List SubmissionData)
  deriving DecidableEq, Repr

/-- Settlement of the returned promise. -/
inductive Settlement where
  | resolved
  | rejected
  deriving DecidableEq, Repr

/-- Result of one call of `saveFormSubmission`. -/
structure SaveResult where
  settlement : Settlement
  trace : List Effect
  storage : LocalStorage
  deriving DecidableEq, Repr

/-- The object literal `submissionData` (lines 563-572). -/
def submissionData (c : Collector) (now : String) (fd : FormPayload) : SubmissionData :=
  { name := jsOr (jsOr fd.name fd.fname) none
    phone := jsOr (jsOr (jsOr (jsOr fd.phone fd.mobile) fd.modal_my_mobile2) fd.modal_dg_mobile) none
    email := jsOr (jsOr (jsOr fd.email fd.mail) c.visitorData.email) none
    timestamp := now
    sessionId := c.sessionId
    source := jsOr fd.source (some "form-submission")
    formType := jsOr fd.formType (some "general") }

/-- The retry loop `for (let attempt = 1; attempt <= maxRetries; attempt++)` (lines 587-602),
entered at `attempt`; `fuel` bounds the number of loop tests still to run.  Returns `saved`
and the effects performed. -/
def retryLoop (primaryOk : Nat → Bool) (d : SubmissionData) (maxRetries : Nat) :
    (fuel : Nat) → (attempt : Nat) → Bool × List Effect
  | 0, _ => (false, [])
  | fuel + 1, attempt =>
    if attempt ≤ maxRetries then
      if primaryOk attempt then
        (true, [Effect.primaryWrite attempt d])
      else if attempt < maxRetries then
        let r := retryLoop primaryOk d maxRetries fuel (attempt + 1)
        (r.1, Effect.primaryWrite attempt d :: Effect.delay (1000 * attempt) :: r.2)
      else
        let r := retryLoop primaryOk d maxRetries fuel (attempt + 1)
        (r.1, Effect.primaryWrite attempt d :: r.2)
    else (false, [])

/-- The last-resort block (lines 614-623): read, parse, push, write back. -/
def storeLocally (st : LocalStorage) (d : SubmissionData) : SaveResult :=
  if st.getThrows then ⟨.rejected, [], st⟩
  else
    match st.item with
    | .unusable => ⟨.rejected, [], st⟩
    | item =>
      let pending := (match item with | .array q => q | _ => []) ++ [d]
      if st.setThrows then ⟨.rejected, [], st⟩
      else ⟨.resolved, [Effect.storageWrite pending], { st with item := .array pending }⟩

/-- The method `saveFormSubmission(formData)` (lines 557-628). -/
def saveFormSubmission (c : Collector) (env : Env) (fd : FormPayload) : SaveResult :=
  if !c.consentGiven then ⟨.resolved, [], env.storage⟩
  else
    let d := submissionData c env.now fd
    if !truthy d.name && !truthy d.phone then ⟨.resolved, [], env.storage⟩
    else
      let maxRetries := 3
      let p := if c.db then retryLoop env.primaryOk d maxRetries (maxRetries + 1) 1 else (false, [])
      if p.1 then ⟨.resolved, p.2, env.storage⟩
      else if env.secondaryOk then
        ⟨.resolved, p.2 ++ [Effect.secondaryWrite d], env.storage⟩
      else
        let r := storeLocally env.storage d
        ⟨r.settlement, p.2 ++ [Effect.secondaryWrite d] ++ r.trace, r.storage⟩

/-- Number of primary-store writes in a trace. -/
def primaryWrites (t : List Effect) : Nat :=
  (t.filter fun e => match e with | .primaryWrite _ _ => true | _ => false).length

/-- Number of secondary HTTP calls in a trace. -/
def secondaryWrites (t : List Effect) : Nat :=
  (t.filter fun e => match e with | .secondaryWrite _ => true | _ => false).length

/-- The backoff delays of a trace, in order. -/
def delays (t : List Effect) : List Nat :=
  t.filterMap fun e => match e with | .delay ms => some ms | _ => none

/-- Whether the primary stage of `saveFormSubmission` ends with `saved = true`: the store
is configured and one of the three attempts succeeds. -/
def primarySaved (c : Collector) (env : Env) : Bool :=
  c.db && (env.primaryOk 1 || env.primaryOk 2 || env.primaryOk 3)

/-- The local-storage fallback throws: on the read, on parse/push, or on the write. -/
def LocalStorage.throws (s : LocalStorage) : Bool :=
  s.getThrows || s.item == .unusable || s.setThrows

/-- A payload passes validation: a name or a phone is present under one of the keys read. -/
def FormPayload.valid (fd : FormPayload) : Prop :=
  truthy fd.name = true ∨ truthy fd.fname = true ∨ truthy fd.phone = true ∨
    truthy fd.mobile = true ∨ truthy fd.modal_my_mobile2 = true ∨ truthy fd.modal_dg_mobile = true

instance (fd : FormPayload) : Decidable fd.valid := by
  unfold FormPayload.valid; infer_instance

/-! ## Strings, `includes` and the phone pattern -/

/-- Substring test on character lists. -/
def includesChars : List Char → List Char → Bool
  | [], k => k.isEmpty
  | c :: cs, k => k.isPrefixOf (c :: cs) || includesChars cs k

/-- The method `String.prototype.includes`. -/
def includes (s k : String) : Bool := includesChars s.data k.data

/-- ASCII lower-casing; `String.prototype.toLowerCase` agrees with it on ASCII text. -/
def asciiLower (s : String) : String := ⟨s.data.map Char.toLower⟩

/-- The regex class `\d`. -/
def isDigit (c : Char) : Bool := decide (48 ≤ c.toNat) && decide (c.toNat ≤ 57)

/-- The regex class `\s` (ECMAScript white space and line terminators). -/
def isSpace (c : Char) : Bool :=
  let n := c.toNat
  (decide (9 ≤ n) && decide (n ≤ 13)) || n == 32 || n == 160 || n == 5760 ||
    (decide (8192 ≤ n) && decide (n ≤ 8202)) || n == 8232 || n == 8233 || n == 8239 ||
    n == 8287 || n == 12288 || n == 65279

/-- The regex class `[\d\s-]`. -/
def isBody (c : Char) : Bool := isDigit c || isSpace c || c == '-'

/-- Match of `\d[\d\s-]{8,}\d` anchored at the head of the input.  The greedy quantifier
takes the longest run of class characters and gives characters back until a digit follows,
so the match ends at the last digit of the run, which must sit at index 8 or later. -/
def matchDigits : List Char → Option (List Char)
  | [] => none
  | d :: rest =>
    if isDigit d then
      let t := (rest.takeWhile isBody).rdropWhile fun c => !isDigit c
      if 9 ≤ t.length then some (d :: t) else none
    else none

/-- Match of `\+?\d[\d\s-]{8,}\d` anchored at the head of the input: the optional `+` is
taken when present (without it the next atom `\d` would face the `+` and fail). -/
def matchAt : List Char → Option (List Char)
  | [] => none
  | c :: cs =>
    if c = '+' then (matchDigits cs).map fun m => '+' :: m
    else matchDigits (c :: cs)

/-- Capture group 1 of `str.match(/(\+?\d[\d\s-]{8,}\d)/)`: the leftmost match, if any. -/
def phoneMatch : List Char → Option (List Char)
  | [] => none
  | c :: cs =>
    match matchAt (c :: cs) with
    | some m => some m
    | none => phoneMatch cs

/-- The normalisation of lines 498-499:
`match ? match[1].replace(/[^\d+]/g,'') : result.phone`. -/
def normalizePhone (raw : String) : String :=
  match phoneMatch raw.data with
  | some m => ⟨m.filter fun c => isDigit c || c == '+'⟩
  | none => raw

/-- A body of C10's phone-like values: only digits, spaces and hyphens, a digit first and
last, at least nine digits. -/
def phoneLikeBody (body : List Char) : Bool :=
  body.all (fun c => isDigit c || c == ' ' || c == '-') &&
    (body.head?.map isDigit).getD false && (body.getLast?.map isDigit).getD false &&
    decide (9 ≤ (body.filter isDigit).length)

/-- The raw phone values of C10: an optional leading `+` followed by a phone-like body. -/
def phoneLike (raw : List Char) : Bool :=
  match raw with
  | [] => false
  | c :: cs => if c = '+' then phoneLikeBody cs else phoneLikeBody (c :: cs)

/-- The raw value with every space and hyphen removed. -/
def stripSeparators (raw : String) : String :=
  ⟨raw.data.filter fun c => c != ' ' && c != '-'⟩

/-! ## Forms and the document -/

/-- An element as the selectors and property reads of the collector see it; an absent
attribute is the empty string. -/
structure Element where
  tag : String
  type : String := ""
  name : String := ""
  id : String := ""
  value : String := ""
  textContent : String := ""
  deriving DecidableEq, Repr

/-- A form: its `id`, the entries of `new FormData(form)`, and its descendant elements in
document order. -/
structure Form where
  id : String := ""
  entries : List (String × String) := []
  elements : List Element := []
  deriving DecidableEq, Repr

/-- The method `form.querySelector`: the first descendant matching the selector. -/
def Form.querySelector (form : Form) (sel : Element → Bool) : Option Element :=
  form.elements.find? sel

/-- The object `data` filled by `for (let [key, value] of formData.entries())`:
a later entry overwrites an earlier one with the same key. -/
def formDataObject (form : Form) (key : String) : Option String :=
  (form.entries.reverse.find? fun e => e.1 == key).map fun e => e.2

/-- The modal found by `document.querySelector('.modal.show, .modal.in, [id*="enqModal"]')`;
`title` is the `textContent` of its title element when it has one. -/
structure Modal where
  title : Option String := none
  deriving DecidableEq, Repr

/-- The element found by
`document.querySelector('[data-target="#enqModal"], [data-toggle="modal"]')`. -/
structure ModalTrigger where
  dataTitle : Option String := none
  dataEnquiry : Option String := none
  deriving DecidableEq, Repr

/-- The parts of the document outside the form that the collector reads. -/
structure Document where
  pathname : String := "/"
  modal : Option Modal := none
  modalTrigger : Option ModalTrigger := none
  deriving DecidableEq, Repr

/-! ## `extractContactFields` -/

/-- The object returned by `extractContactFields`. -/
structure ContactFields where
  name : Option String
  phone : Option String
  email : Option String
  deriving DecidableEq, Repr

/-- Selector `input[type="tel"]`. -/
def selTel (e : Element) : Bool := e.tag == "input" && e.type == "tel"

/-- Selector `input[name*="phone"], input[name*="mobile"], input[name*="tel"]`. -/
def selPhoneName (e : Element) : Bool :=
  e.tag == "input" && (includes e.name "phone" || includes e.name "mobile" || includes e.name "tel")

/-- Selector `input[name*="email"], input[type="email"]`. -/
def selEmail (e : Element) : Bool :=
  e.tag == "input" && (includes e.name "email" || e.type == "email")

/-- A fallback lookup `if (!cur) { const el = form.querySelector(sel); if (el && el.value) cur = el.value; }`. -/
def fallbackValue (form : Form) (sel : Element → Bool) (cur : Option String) : Option String :=
  if !truthy cur then
    match form.querySelector sel with
    | some el => if el.value != "" then some el.value else cur
    | none => cur
  else cur

/-- The phone value of lines 484-495, before normalisation. -/
def rawPhone (form : Form) (data : String → Option String) : Option String :=
  let p0 := jsOr (jsOr (jsOr (jsOr (jsOr (data "phone") (data "mobile")) (data "modal_my_mobile2"))
    (data "modal_dg_mobile")) (data "mobileconcat")) none
  let p1 := fallbackValue form selTel p0
  fallbackValue form selPhoneName p1

/-- The method `extractContactFields(form, data)` (lines 480-507). -/
def extractContactFields (form : Form) (data : String → Option String) : ContactFields :=
  let name := jsOr (jsOr (jsOr (data "name") (data "fname")) (data "fullname")) none
  let email0 := jsOr (jsOr (data "email") (data "mail")) none
  let phone0 := rawPhone form data
  let phone :=
    match phone0 with
    | some p => if truthy (some p) then some (normalizePhone p) else phone0
    | none => phone0
  { name := name, phone := phone, email := fallbackValue form selEmail email0 }

/-! ## Form-type detection in `trackFormSubmission` -/

/-- The values of `formType`. -/
inductive FormType where
  | general
  | call_back
  | brochure
  | chat
  deriving DecidableEq, Repr

/-- Selector `button[type="submit"], input[type="submit"]`. -/
def selSubmit (e : Element) : Bool :=
  (e.tag == "button" || e.tag == "input") && e.type == "submit"

/-- Selector `input[name="enquiredfor"], input[id="enquiredfor"]`. -/
def selEnquiredFor (e : Element) : Bool :=
  e.tag == "input" && (e.name == "enquiredfor" || e.id == "enquiredfor")

/-- The expression `submitButton.textContent || submitButton.value || ''`. -/
def buttonText (b : Element) : String :=
  if b.textContent != "" then b.textContent else b.value

/-- Lines 353-370: the type read from the submit button. -/
def buttonStep (toLowerCase : String → String) (form : Form) : FormType :=
  match form.querySelector selSubmit with
  | some b =>
    let t := toLowerCase (buttonText b)
    if includes t "instant call" || includes t "call back" || includes t "call back" then .call_back
    else if includes t "brochure" || includes t "download" then .brochure
    else if includes t "enquiry" || includes t "chat" || includes t "send" then .chat
    else .general
  | none => .general

/-- Lines 377-391: the type read from the modal title, given the type so far. -/
def modalTitleStep (toLowerCase : String → String) (modal : Modal) (ft : FormType) : FormType :=
  match modal.title with
  | some text =>
    let title := toLowerCase text
    if includes title "brochure" || includes title "download" then .brochure
    else if includes title "chat" || includes title "enquiry" then .chat
    else if includes title "call" || includes title "instant" then .call_back
    else ft
  | none => ft

/-- The text `dataTitle + ' ' + dataEnquiry` of lines 396-398, before lower-casing; a
missing attribute (`getAttribute` gives `null`) counts as `''`. -/
def triggerAttributes (tr : ModalTrigger) : String :=
  let dataTitle := (jsOr tr.dataTitle (some "")).getD ""
  let dataEnquiry := (jsOr tr.dataEnquiry (some "")).getD ""
  dataTitle ++ " " ++ dataEnquiry

/-- Lines 393-410: the type read from the modal trigger, given the type so far. -/
def modalTriggerStep (toLowerCase : String → String) (doc : Document) (ft : FormType) : FormType :=
  match doc.modalTrigger with
  | some tr =>
    if ft = .general then
      let triggerText := toLowerCase (triggerAttributes tr)
      if includes triggerText "call" || includes triggerText "instant" then .call_back
      else if includes triggerText "brochure" then .brochure
      else if includes triggerText "enquiry" || includes triggerText "chat" then .chat
      else ft
    else ft
  | none => ft

/-- Lines 372-412: the modal context, consulted when the button text decided nothing and
the form is `pardotForm`. -/
def modalStep (toLowerCase : String → String) (doc : Document) (form : Form) (ft : FormType) :
    FormType :=
  if ft = .general ∧ form.id = "pardotForm" then
    match doc.modal with
    | some modal => modalTriggerStep toLowerCase doc (modalTitleStep toLowerCase modal ft)
    | none => ft
  else ft

/-- Lines 414-427: the hidden `enquiredfor` field, consulted when nothing is decided yet. -/
def enquiredForStep (toLowerCase : String → String) (form : Form) (ft : FormType) : FormType :=
  if ft = .general then
    match form.querySelector selEnquiredFor with
    | some enquiredFor =>
      if enquiredFor.value != "" then
        let value := toLowerCase enquiredFor.value
        if includes value "call" || includes value "instant" then .call_back
        else if includes value "brochure" then .brochure
        else ft
      else ft
    | none => ft
  else ft

/-- The value of `formType` that `trackFormSubmission` computes (lines 350-429). -/
def formType (toLowerCase : String → String) (doc : Document) (form : Form) : FormType :=
  enquiredForStep toLowerCase form (modalStep toLowerCase doc form (buttonStep toLowerCase form))

/-! ## Keyword groups, as the specification words them -/

/-- A keyword group: the type it stands for and its keywords. -/
abbrev KeywordGroup := FormType × List String

/-- The first group, in the order given, one of whose keywords occurs in the text. -/
def firstMatchingGroup (groups : List KeywordGroup) (text : String) : Option FormType :=
  (groups.find? fun g => g.2.any fun k => includes text k).map fun g => g.1

/-- The three groups of step 1 of the classifier, in the order of the specification. -/
def buttonGroups : List KeywordGroup :=
  [(.call_back, ["instant call", "call back"]), (.brochure, ["brochure", "download"]),
   (.chat, ["enquiry", "chat", "send"])]

/-- The groups the modal title is tested against, in the order tested. -/
def modalTitleGroups : List KeywordGroup :=
  [(.brochure, ["brochure", "download"]), (.chat, ["chat", "enquiry"]),
   (.call_back, ["call", "instant"])]

/-- The groups the modal trigger text is tested against, in the order tested. -/
def modalTriggerGroups : List KeywordGroup :=
  [(.call_back, ["call", "instant"]), (.brochure, ["brochure"]), (.chat, ["enquiry", "chat"])]

/-- The groups the hidden `enquiredfor` value is tested against, in the order tested. -/
def enquiredForGroups : List KeywordGroup :=
  [(.call_back, ["call", "instant"]), (.brochure, ["brochure"])]

/-- The formType the button-text classifier of step 1 gives on a lower-cased text. -/
def stepOneType (text : String) : FormType :=
  (firstMatchingGroup buttonGroups text).getD .general

/-- A phone made of decimal digits only, optionally preceded by one leading `+`. -/
def isNormalizedPhone (p : String) : Bool :=
  match p.data with
  | [] => true
  | c :: cs => (c == '+' || isDigit c) && cs.all isDigit

/-! ## Device detection -/

/-- The method `regex.test(s)` for a case-insensitive alternation of literal ASCII words
(`/A|B|.../i`): some alternative occurs in `s` up to the case of ASCII letters. -/
def testIgnoreCase (alternatives : List String) (s : String) : Bool :=
  alternatives.any fun a => includes (asciiLower s) (asciiLower a)

/-- The values of `deviceType`. -/
inductive DeviceType where
  | mobile
  | tablet
  | desktop
  deriving DecidableEq, Repr

/-- The alternatives of `/Mobile|Android|iPhone|iPad|iPod|BlackBerry|IEMobile|Opera Mini/i`. -/
def mobileTokens : List String :=
  ["Mobile", "Android", "iPhone", "iPad", "iPod", "BlackBerry", "IEMobile", "Opera Mini"]

/-- The alternatives of `/Tablet|iPad/i`. -/
def tabletTokens : List String := ["Tablet", "iPad"]

/-- The method `detectDeviceType()` (lines 123-131), as a function of `navigator.userAgent`. -/
def detectDeviceType (userAgent : String) : DeviceType :=
  if testIgnoreCase mobileTokens userAgent then .mobile
  else if testIgnoreCase tabletTokens userAgent then .tablet
  else .desktop

/-! ## `saveVisitorData` and `trackPageView` -/

/-- The array `excludedPages` (lines 636-643 and 242-249). -/
def excludedPages : List String :=
  ["/firebase-dashboard.html", "/traffic_dashboard.html", "/firebase-test.html", "/index.html",
   "/server-status.html", "/thank-you.html"]

/-- The test `excludedPages.some(page => currentPath.includes(page))`. -/
def isExcluded (currentPath : String) : Bool :=
  excludedPages.any fun page => includes currentPath page

/-- The object literal `minimal` written to the remote stores. -/
structure VisitorRecord where
  sessionId : String
  timestamp : String
  name : Option String
  phone : Option String
  email : Option String
  deriving DecidableEq, Repr

/-- Writes attempted by `saveVisitorData`, in order: to the primary store, to the local
server API, and `localStorage.setItem('birla_visitor_data', ..)` with the whole
`visitorData`. -/
inductive VisitorEffect where
  | primaryWrite (r : VisitorRecord)
  | serverWrite (r : VisitorRecord)
  | storageWrite (v : VisitorData)
  deriving DecidableEq, Repr

/-- The environment of one call of `saveVisitorData`: the page path, the host's
`toLowerCase`, `Date.now()`, the ISO time stamps read in the `try` block and in the `catch`
block, the outcome of the primary write, the outcome of the `k`-th call of
`saveToLocalServer`, and whether `localStorage.setItem` throws. -/
structure VisitorEnv where
  pathname : String
  toLowerCase : String → String
  now : Nat
  timestamp : String
  retryTimestamp : String
  primaryOk : Bool
  serverOk : Nat → Bool
  storageThrows : Bool

/-- Result of one call of `saveVisitorData`: the collector afterwards, the writes
attempted, and the settlement of the returned promise. -/
structure VisitorSave where
  collector : Collector
  trace : List VisitorEffect
  settlement : Settlement
  deriving DecidableEq, Repr

/-- The debounce test `this.lastSaveTime && (now - this.lastSaveTime) < 5000` (line 653). -/
def savedRecently (lastSaveTime : Option Nat) (now : Nat) : Bool :=
  match lastSaveTime with
  | some t => t != 0 && decide ((now : Int) - (t : Int) < 5000)
  | none => false

/-- The `catch` block of lines 684-702, entered after a failed write; `k` is the index of
the `saveToLocalServer` call it makes. -/
def visitorFallback (c : Collector) (env : VisitorEnv) (k : Nat) :
    List VisitorEffect × Settlement :=
  let minimal : VisitorRecord := ⟨c.visitorData.sessionId, env.retryTimestamp, none, none, none⟩
  if env.serverOk k then ([.serverWrite minimal], .resolved)
  else if env.storageThrows then ([.serverWrite minimal], .rejected)
  else ([.serverWrite minimal, .storageWrite c.visitorData], .resolved)

/-- The method `saveVisitorData()` (lines 631-703). -/
def saveVisitorData (c : Collector) (env : VisitorEnv) : VisitorSave :=
  if !c.consentGiven then ⟨c, [], .resolved⟩
  else if isExcluded (env.toLowerCase env.pathname) then ⟨c, [], .resolved⟩
  else if savedRecently c.lastSaveTime env.now then ⟨c, [], .resolved⟩
  else
    let c1 := { c with lastSaveTime := some env.now }
    let minimal : VisitorRecord := ⟨c.visitorData.sessionId, env.timestamp, none, none, none⟩
    if c.db then
      if env.primaryOk then ⟨c1, [.primaryWrite minimal], .resolved⟩
      else
        let f := visitorFallback c1 env 1
        ⟨c1, .primaryWrite minimal :: f.1, f.2⟩
    else
      if env.serverOk 1 then ⟨c1, [.serverWrite minimal], .resolved⟩
      else
        let f := visitorFallback c1 env 2
        ⟨c1, .serverWrite minimal :: f.1, f.2⟩

/-- Whether a call of `saveVisitorData` attempted a store write. -/
def VisitorSave.attempted (r : VisitorSave) : Bool := !r.trace.isEmpty

/-- Successive calls of `saveVisitorData`, one per environment: for each call, its clock
reading and whether it attempted a write; and the collector at the end. -/
def saveVisitorDataCalls (c : Collector) : List VisitorEnv → List (Nat × Bool) × Collector
  | [] => ([], c)
  | env :: rest =>
    let r := saveVisitorData c env
    let t := saveVisitorDataCalls r.collector rest
    ((env.now, r.attempted) :: t.1, t.2)

/-- The rule of the debounce claim for one call at clock reading `now`, where `last` is the
clock reading of the most recent call that attempted a write: the call attempts a write if
and only if there is no such call or at least 5000 ms have passed since it. -/
def attemptByClaim (last : Option Nat) (now : Nat) : Bool :=
  match last with
  | none => true
  | some t => decide (t + 5000 ≤ now)

/-- The rule of the debounce claim along successive calls: for each call, its clock
reading and whether it attempts a write. -/
def debounceByClaim (last : Option Nat) : List Nat → List (Nat × Bool)
  | [] => []
  | now :: rest =>
    (now, attemptByClaim last now) ::
      debounceByClaim (if attemptByClaim last now then some now else last) rest

/-- The clock readings of the calls that attempted a write. -/
def attemptTimes (calls : List (Nat × Bool)) : List Nat :=
  (calls.filter fun x => x.2).map fun x => x.1

/-- An environment for examples: the landing page at clock reading `now`, with the given
outcome of the primary write, a failing local server and a working local storage. -/
def visitAt (now : Nat) (primaryOk : Bool) : VisitorEnv :=
  { pathname := "/birla-estate-sector71-gurugram/", toLowerCase := asciiLower, now := now,
    timestamp := "t", retryTimestamp := "t", primaryOk := primaryOk,
    serverOk := fun _ => false, storageThrows := false }

/-- The globals on `window` shared by the two scripts. -/
structure Window where
  pageViewTrackedByDataCollector : Bool := false
  trafficTrackerInitialized : Bool := false
  deriving DecidableEq, Repr

/-- Result of one call of `trackPageView`: the collector and `window` afterwards, the
number of times it invoked `saveVisitorData`, and the writes that invocation attempted. -/
structure PageView where
  collector : Collector
  window : Window
  saveCalls : Nat
  trace : List VisitorEffect
  deriving DecidableEq, Repr

/-- The method `trackPageView()` of the collector (lines 234-264). -/
def trackPageView (c : Collector) (w : Window) (env : VisitorEnv) : PageView :=
  if c.pageViewTracked then ⟨c, w, 0, []⟩
  else if isExcluded (env.toLowerCase env.pathname) then
    ⟨{ c with pageViewTracked := true }, { w with pageViewTrackedByDataCollector := true }, 0, []⟩
  else
    let c1 := { c with
      pageViewTracked := true
      visitorData := { c.visitorData with
        behavior := { c.visitorData.behavior with
          pageViews := c.visitorData.behavior.pageViews + 1 } } }
    let r := saveVisitorData c1 env
    ⟨r.collector, { w with pageViewTrackedByDataCollector := true }, 1, r.trace⟩

/-- Successive calls of `trackPageView` within one page load, one per environment: the
final state, the total number of `saveVisitorData` invocations, and all writes. -/
def trackPageViewCalls (c : Collector) (w : Window) : List VisitorEnv → PageView
  | [] => ⟨c, w, 0, []⟩
  | env :: rest =>
    let r := trackPageView c w env
    let t := trackPageViewCalls r.collector r.window rest
    ⟨t.collector, t.window, r.saveCalls + t.saveCalls, r.trace ++ t.trace⟩

/-- Result of one run of the collector's scroll listener. -/
structure ScrollSave where
  maxScroll : JsNumber
  collector : Collector
  saveCalls : Nat
  trace : List VisitorEffect
  deriving DecidableEq, Repr

/-- The scroll listener of `setupBehaviorTracking` (lines 513-520); `maxScroll` is the
variable of its closure and `scrollPercent` the value computed on line 514. -/
def scrollListener (maxScroll : JsNumber) (c : Collector) (env : VisitorEnv)
    (scrollPercent : JsNumber) : ScrollSave :=
  if scrollPercent.gt maxScroll then
    let c1 := { c with
      visitorData := { c.visitorData with
        behavior := { c.visitorData.behavior with scrollDepth := scrollPercent } } }
    let r := saveVisitorData c1 env
    ⟨scrollPercent, r.collector, 1, r.trace⟩
  else ⟨maxScroll, c, 0, []⟩

/-! ## `trackFormSubmission` -/

/-- The string stored as `formType`. -/
def FormType.toString : FormType → String
  | .general => "general"
  | .call_back => "call_back"
  | .brochure => "brochure"
  | .chat => "chat"

/-- What a timer set by `trackFormSubmission` does when it fires. -/
inductive TimerAction where
  | redirect (href : String)
  | clearInProgress
  deriving DecidableEq, Repr

/-- A call `setTimeout(action, delay)`. -/
structure Timer where
  delay : Nat
  action : TimerAction
  deriving DecidableEq, Repr

/-- The `.then` callback of lines 438-443. -/
def thenHandler : List Timer := [⟨500, .redirect "thank-you.html"⟩]

/-- The `.catch` callback of lines 444-449. -/
def catchHandler : List Timer := [⟨500, .redirect "thank-you.html"⟩]

/-- The `.finally` callback of lines 450-454. -/
def finallyHandler : List Timer := [⟨2000, .clearInProgress⟩]

/-- The chain `promise.then(..).catch(..).finally(..)` of lines 438-455: the timers set, in
order, once the promise has settled.  `.then` runs its callback on fulfilment and passes a
rejection on; `.catch` runs its callback on a rejection; `.finally` runs in both cases.
None of the callbacks throws. -/
def settleChain (s : Settlement) : List Timer :=
  let afterThen : List Timer × Settlement :=
    match s with
    | .resolved => (thenHandler, .resolved)
    | .rejected => ([], .rejected)
  let afterCatch : List Timer × Settlement :=
    match afterThen.2 with
    | .rejected => (catchHandler, .resolved)
    | .resolved => ([], .resolved)
  afterThen.1 ++ afterCatch.1 ++ finallyHandler

/-- Result of one call of `trackFormSubmission`: the collector when the call returns, the
call of `saveFormSubmission` it made (argument and result), if any, and the timers set
when that promise settles. -/
structure Submission where
  collector : Collector
  saved : Option (FormPayload × SaveResult)
  timers : List Timer
  deriving DecidableEq, Repr

/-- Lines 458-461: the contact fields copied into `visitorData` and the interaction count. -/
def recordContact (v : VisitorData) (extracted : ContactFields) : VisitorData :=
  let v1 := if truthy extracted.name then { v with name := extracted.name } else v
  let v2 := if truthy extracted.phone then { v1 with phone := extracted.phone } else v1
  let v3 := if truthy extracted.email then { v2 with email := extracted.email } else v2
  { v3 with behavior := { v3.behavior with formInteractions := v3.behavior.formInteractions + 1 } }

/-- The method `trackFormSubmission(form)` (lines 335-462).  `saveFormSubmission` reads the
collector before lines 458-461 run, since its body up to the first `await` is executed by
the call itself. -/
def trackFormSubmission (toLowerCase : String → String) (c : Collector) (doc : Document)
    (form : Form) (env : Env) : Submission :=
  if c.formSubmissionInProgress then ⟨c, none, []⟩
  else
    let c1 := { c with formSubmissionInProgress := true }
    let extracted := extractContactFields form (formDataObject form)
    let payload : FormPayload :=
      { name := jsOr extracted.name none
        phone := jsOr extracted.phone none
        email := jsOr extracted.email none
        formType := some (formType toLowerCase doc form).toString
        source := some doc.pathname }
    let r := saveFormSubmission c1 env payload
    ⟨{ c1 with visitorData := recordContact c1.visitorData extracted }, some (payload, r),
      settleChain r.settlement⟩

/-- A timer set by `trackFormSubmission` fires. -/
def fireTimer (c : Collector) : TimerAction → Collector
  | .redirect _ => c
  | .clearInProgress => { c with formSubmissionInProgress := false }

/-- Number of redirects to a page among the timers set. -/
def redirectsTo (href : String) (timers : List Timer) : Nat :=
  (timers.filter fun t => t.action == .redirect href).length

/-- The operations on the collector embedded here. -/
inductive Operation where
  | trackFormSubmission (doc : Document) (form : Form) (env : Env)
  | saveVisitorData (env : VisitorEnv)
  | trackPageView (w : Window) (env : VisitorEnv)
  | scroll (maxScroll : JsNumber) (env : VisitorEnv) (scrollPercent : JsNumber)
  | timer (action : TimerAction)

/-- The collector after an operation. -/
def Operation.run (toLowerCase : String → String) (c : Collector) : Operation → Collector
  | .trackFormSubmission doc form env =>
    (DataCollector.trackFormSubmission toLowerCase c doc form env).collector
  | .saveVisitorData env => (DataCollector.saveVisitorData c env).collector
  | .trackPageView w env => (DataCollector.trackPageView c w env).collector
  | .scroll maxScroll env p => (scrollListener maxScroll c env p).collector
  | .timer action => fireTimer c action

/-- The enquiry form of the examples: a name, a phone and a "Send" button. -/
def enquiryForm : Form :=
  { id := "pardotForm",
    entries := [("fname", "Asha"), ("mobile", "98765 43210")],
    elements := [{ tag := "input", type := "text", name := "fname", value := "Asha" },
                 { tag := "input", type := "tel", name := "mobile", value := "98765 43210" },
                 { tag := "button", type := "submit", textContent := "Send" }] }

end DataCollector

/-! Traffic tracker (`assets/js/traffic_tracker.js`). -/

namespace TrafficTracker

open DataCollector

/-- One call of `trackEvent(action, page)`: the event handed to the stores. -/
structure TrackEvent where
  action : String
  page : String
  deriving DecidableEq, Repr

/-- The function `getDeviceType()` (lines 52-60), as a function of `navigator.userAgent`. -/
def getDeviceType (userAgent : String) : DeviceType :=
  if testIgnoreCase mobileTokens userAgent then .mobile
  else if testIgnoreCase tabletTokens userAgent then .tablet
  else .desktop

/-- The array `excludedPages` of `trackPageView` (lines 120-127). -/
def excludedPages : List String :=
  ["/firebase-dashboard.html", "/traffic_dashboard.html", "/firebase-test.html", "/index.html",
   "/server-status.html", "/thank-you.html"]

/-- The function `trackPageView()` (lines 118-136): the events it hands to `trackEvent`. -/
def trackPageView (toLowerCase : String → String) (pathname : String) : List TrackEvent :=
  let currentPath := toLowerCase pathname
  if excludedPages.any fun page => includes currentPath page then []
  else [⟨"page_view", pathname⟩]

/-- The timer callback of `initTracking` (lines 238-242). -/
def pageViewTimer (toLowerCase : String → String) (w : Window) (pathname : String) :
    List TrackEvent :=
  if !w.pageViewTrackedByDataCollector then trackPageView toLowerCase pathname else []

/-- The submit listener bound by `trackFormSubmissions` (lines 148-160). -/
def submitListener (pathname : String) : List TrackEvent :=
  [⟨"form_submit", pathname⟩]

/-- The click listener bound by `trackButtonClicks` (lines 168-171); `text` is
`this.textContent.trim()` and `href` the `href` attribute. -/
def clickListener (text : String) (href : Option String) : List TrackEvent :=
  let action := (jsOr (jsOr (some text) href) (some "button_click")).getD "button_click"
  [⟨"button_click", action⟩]

/-- The `beforeunload` listener of `initTracking` (lines 253-256); `timeOnPage` is the text
of `Math.round((Date.now() - startTime) / 1000)`. -/
def unloadListener (timeOnPage : String) : List TrackEvent :=
  [⟨"time_on_page", timeOnPage ++ " seconds"⟩]

/-- The variables `maxScroll` and `scrollTracked` of the closure of `trackScrollDepth`. -/
structure ScrollState where
  maxScroll : JsNumber := .fin 0
  scrollTracked : Bool := false
  deriving DecidableEq, Repr

/-- The scroll listener of `trackScrollDepth` (lines 203-221); `scrollPercent` is the value
computed on line 204.  Returns the closure variables afterwards and the events emitted. -/
def scrollListener (st : ScrollState) (pathname : String) (scrollPercent : JsNumber) :
    ScrollState × List TrackEvent :=
  if scrollPercent.gt st.maxScroll then
    let st1 := { st with maxScroll := scrollPercent }
    if scrollPercent.ge (.fin 25) && scrollPercent.lt (.fin 50) && !st.scrollTracked then
      ({ st1 with scrollTracked := true }, [⟨"scroll_25", pathname⟩])
    else if scrollPercent.ge (.fin 50) && scrollPercent.lt (.fin 75) then
      (st1, [⟨"scroll_50", pathname⟩])
    else if scrollPercent.ge (.fin 75) && scrollPercent.lt (.fin 100) then
      (st1, [⟨"scroll_75", pathname⟩])
    else if scrollPercent.ge (.fin 100) then
      (st1, [⟨"scroll_100", pathname⟩])
    else (st1, [])
  else (st, [])

/-- The scroll listener run on successive scroll events of one page load. -/
def scrollEvents (st : ScrollState) (pathname : String) :
    List JsNumber → ScrollState × List TrackEvent
  | [] => (st, [])
  | p :: rest =>
    let r := scrollListener st pathname p
    let t := scrollEvents r.1 pathname rest
    (t.1, r.2 ++ t.2)

/-- Number of events of a given kind among the events emitted. -/
def countAction (action : String) (events : List TrackEvent) : Nat :=
  (events.filter fun e => e.action == action).length

end TrafficTracker

/-! # Theorems -/

namespace DataCollector

/-! ## Lemmas on JavaScript values and validation -/

theorem truthy_jsOr (a b : Option String) : truthy (jsOr a b) = (truthy a || truthy b) := by
  unfold jsOr
  cases h : truthy a <;> simp [h]

theorem truthy_none : truthy none = false := rfl

theorem truthy_submission_name (c : Collector) (now : String) (fd : FormPayload) :
    truthy (submissionData c now fd).name = (truthy fd.name || truthy fd.fname) := by
  simp [submissionData, truthy_jsOr, truthy_none]

theorem truthy_submission_phone (c : Collector) (now : String) (fd : FormPayload) :
    truthy (submissionData c now fd).phone =
      (truthy fd.phone || truthy fd.mobile || truthy fd.modal_my_mobile2 ||
        truthy fd.modal_dg_mobile) := by
  simp [submissionData, truthy_jsOr, truthy_none]

/-- The validation of line 575 passes exactly on valid payloads. -/
theorem validation_iff (c : Collector) (now : String) (fd : FormPayload) :
    (!truthy (submissionData c now fd).name && !truthy (submissionData c now fd).phone) = false
      ↔ fd.valid := by
  rw [truthy_submission_name, truthy_submission_phone]
  unfold FormPayload.valid
  cases truthy fd.name <;> cases truthy fd.fname <;> cases truthy fd.phone <;>
    cases truthy fd.mobile <;> cases truthy fd.modal_my_mobile2 <;>
    cases truthy fd.modal_dg_mobile <;> simp

/-- After lines 26-47 of `init()` the consent flag is set, whatever the store answered. -/
theorem init_consentGiven (c : Collector) (initialized database : Bool) :
    (c.init initialized database).consentGiven = true := by
  unfold Collector.init
  cases initialized <;> cases h : c.trackingInitialized <;> simp [h]

/-- The store handle is only ever set by `init()`, in the same run that sets the consent
flag: a collector built by the constructor and initialised has `db` only under consent. -/
theorem init_db_consent (sessionId : String) (initialized database : Bool) :
    ((Collector.new sessionId).init initialized database).db = true →
      ((Collector.new sessionId).init initialized database).consentGiven = true :=
  fun _ => init_consentGiven _ _ _

/-- The retry loop when the three attempts fail. -/
theorem retryLoop_all_fail (primaryOk : Nat → Bool) (d : SubmissionData)
    (h1 : primaryOk 1 = false) (h2 : primaryOk 2 = false) (h3 : primaryOk 3 = false) :
    retryLoop primaryOk d 3 4 1 =
      (false, [Effect.primaryWrite 1 d, Effect.delay 1000, Effect.primaryWrite 2 d,
        Effect.delay 2000, Effect.primaryWrite 3 d]) := by
  simp [retryLoop, h1, h2, h3]

/-- Unfolding of `saveFormSubmission` past the consent gate and validation. -/
theorem saveFormSubmission_valid (c : Collector) (env : Env) (fd : FormPayload)
    (hc : c.consentGiven = true) (hv : fd.valid) :
    saveFormSubmission c env fd =
      (let d := submissionData c env.now fd
       let p := if c.db then retryLoop env.primaryOk d 3 4 1 else (false, [])
       if p.1 then ⟨.resolved, p.2, env.storage⟩
       else if env.secondaryOk then
         ⟨.resolved, p.2 ++ [Effect.secondaryWrite d], env.storage⟩
       else
         let r := storeLocally env.storage d
         ⟨r.settlement, p.2 ++ [Effect.secondaryWrite d] ++ r.trace, r.storage⟩) := by
  have hval := (validation_iff c env.now fd).mpr hv
  unfold saveFormSubmission
  simp only [hc, Bool.not_true, Bool.false_eq_true, if_false, hval]

theorem retryLoop_saved (primaryOk : Nat → Bool) (d : SubmissionData) :
    (retryLoop primaryOk d 3 4 1).1 = (primaryOk 1 || primaryOk 2 || primaryOk 3) := by
  cases h1 : primaryOk 1 <;> cases h2 : primaryOk 2 <;> cases h3 : primaryOk 3 <;>
    simp [retryLoop, h1, h2, h3]

/-! ## Claims on `saveFormSubmission` -/

/-- C1: a payload without name, fname, phone, mobile and the two legacy phone keys is
dropped, whatever its email: no primary write, no secondary call, local storage untouched,
and the promise resolves. -/
theorem saveFormSubmission_drops_invalid (c : Collector) (env : Env) (fd : FormPayload)
    (hn : truthy fd.name = false) (hf : truthy fd.fname = false)
    (hp : truthy fd.phone = false) (hm : truthy fd.mobile = false)
    (h1 : truthy fd.modal_my_mobile2 = false) (h2 : truthy fd.modal_dg_mobile = false) :
    (saveFormSubmission c env fd).settlement = .resolved ∧
      (saveFormSubmission c env fd).trace = [] ∧
      primaryWrites (saveFormSubmission c env fd).trace = 0 ∧
      secondaryWrites (saveFormSubmission c env fd).trace = 0 ∧
      (saveFormSubmission c env fd).storage = env.storage := by
  have hv : (!truthy (submissionData c env.now fd).name &&
      !truthy (submissionData c env.now fd).phone) = true := by
    rw [truthy_submission_name, truthy_submission_phone]
    simp [hn, hf, hp, hm, h1, h2]
  unfold saveFormSubmission
  cases hc : c.consentGiven
  · simp [primaryWrites, secondaryWrites]
  · simp [hv, primaryWrites, secondaryWrites]

/-- The example of C1: `name = null`, `phone = null`, `email = "a@b.com"` on an initialised
collector with both stores ready. -/
theorem saveFormSubmission_drops_invalid_witness :
    (saveFormSubmission ((Collector.new "s1").init true true)
        ⟨"t0", fun _ => true, true, {}⟩ { email := some "a@b.com" }).settlement = .resolved ∧
      (saveFormSubmission ((Collector.new "s1").init true true)
        ⟨"t0", fun _ => true, true, {}⟩ { email := some "a@b.com" }).trace = [] ∧
      primaryWrites (saveFormSubmission ((Collector.new "s1").init true true)
        ⟨"t0", fun _ => true, true, {}⟩ { email := some "a@b.com" }).trace = 0 ∧
      secondaryWrites (saveFormSubmission ((Collector.new "s1").init true true)
        ⟨"t0", fun _ => true, true, {}⟩ { email := some "a@b.com" }).trace = 0 ∧
      (saveFormSubmission ((Collector.new "s1").init true true)
        ⟨"t0", fun _ => true, true, {}⟩ { email := some "a@b.com" }).storage = {} :=
  saveFormSubmission_drops_invalid _ _ _ rfl rfl rfl rfl rfl rfl


/-- C2: on a collector with consent given and the primary store configured, when the
three primary writes fail and the secondary write succeeds, a valid submission causes
exactly three primary attempts followed by one secondary attempt, local storage is not
touched, and the promise resolves. -/
theorem saveFormSubmission_secondary_delivers (c : Collector) (env : Env) (fd : FormPayload)
    (hc : c.consentGiven = true) (hv : fd.valid) (hdb : c.db = true)
    (hfail : ∀ k, 1 ≤ k → k ≤ 3 → env.primaryOk k = false)
    (hsec : env.secondaryOk = true) :
    (saveFormSubmission c env fd).settlement = .resolved ∧
      (saveFormSubmission c env fd).trace =
        [Effect.primaryWrite 1 (submissionData c env.now fd), Effect.delay 1000,
         Effect.primaryWrite 2 (submissionData c env.now fd), Effect.delay 2000,
         Effect.primaryWrite 3 (submissionData c env.now fd),
         Effect.secondaryWrite (submissionData c env.now fd)] ∧
      primaryWrites (saveFormSubmission c env fd).trace = 3 ∧
      secondaryWrites (saveFormSubmission c env fd).trace = 1 ∧
      (saveFormSubmission c env fd).storage = env.storage := by
  have h1 := hfail 1 (by omega) (by omega)
  have h2 := hfail 2 (by omega) (by omega)
  have h3 := hfail 3 (by omega) (by omega)
  rw [saveFormSubmission_valid c env fd hc hv]
  simp [hdb, retryLoop_all_fail _ _ h1 h2 h3, hsec, primaryWrites, secondaryWrites]

/-- C2 at a concrete run: name "Asha", primary failing, secondary succeeding. -/
theorem saveFormSubmission_secondary_delivers_witness :
    (saveFormSubmission ((Collector.new "s1").init true true)
        ⟨"t0", fun _ => false, true, {}⟩ { name := some "Asha" }).settlement = .resolved ∧
      (saveFormSubmission ((Collector.new "s1").init true true)
        ⟨"t0", fun _ => false, true, {}⟩ { name := some "Asha" }).trace =
        [Effect.primaryWrite 1 (submissionData ((Collector.new "s1").init true true) "t0"
            { name := some "Asha" }), Effect.delay 1000,
         Effect.primaryWrite 2 (submissionData ((Collector.new "s1").init true true) "t0"
            { name := some "Asha" }), Effect.delay 2000,
         Effect.primaryWrite 3 (submissionData ((Collector.new "s1").init true true) "t0"
            { name := some "Asha" }),
         Effect.secondaryWrite (submissionData ((Collector.new "s1").init true true) "t0"
            { name := some "Asha" })] ∧
      primaryWrites (saveFormSubmission ((Collector.new "s1").init true true)
        ⟨"t0", fun _ => false, true, {}⟩ { name := some "Asha" }).trace = 3 ∧
      secondaryWrites (saveFormSubmission ((Collector.new "s1").init true true)
        ⟨"t0", fun _ => false, true, {}⟩ { name := some "Asha" }).trace = 1 ∧
      (saveFormSubmission ((Collector.new "s1").init true true)
        ⟨"t0", fun _ => false, true, {}⟩ { name := some "Asha" }).storage = {} :=
  saveFormSubmission_secondary_delivers ((Collector.new "s1").init true true)
    ⟨"t0", fun _ => false, true, {}⟩ { name := some "Asha" } rfl (Or.inl rfl) rfl
    (fun _ _ _ => rfl) rfl

/-- C3, as stated, fails: in a run whose three primary writes fail the delays waited are
1000 ms and 2000 ms only; no 3000 ms delay follows the third failure. -/
theorem backoff_delays_not_three :
    delays (saveFormSubmission ((Collector.new "s1").init true true)
        ⟨"t0", fun _ => false, true, {}⟩ { name := some "Asha" }).trace = [1000, 2000] ∧
      delays (saveFormSubmission ((Collector.new "s1").init true true)
        ⟨"t0", fun _ => false, true, {}⟩ { name := some "Asha" }).trace ≠ [1000, 2000, 3000] := by
  decide

/-- C3 amended: in every run in which the three primary writes fail, the backoff delays
waited are, in order, 1000 ms and 2000 ms (1000 ms times the attempt number after the
first and the second failure, none after the third), whatever the later stages do. -/
theorem backoff_delays_all_fail (c : Collector) (env : Env) (fd : FormPayload)
    (hc : c.consentGiven = true) (hv : fd.valid) (hdb : c.db = true)
    (hfail : ∀ k, 1 ≤ k → k ≤ 3 → env.primaryOk k = false) :
    delays (saveFormSubmission c env fd).trace = [1000 * 1, 1000 * 2] := by
  have h1 := hfail 1 (by omega) (by omega)
  have h2 := hfail 2 (by omega) (by omega)
  have h3 := hfail 3 (by omega) (by omega)
  rw [saveFormSubmission_valid c env fd hc hv]
  simp only [hdb, if_true, retryLoop_all_fail _ _ h1 h2 h3]
  cases hsec : env.secondaryOk
  · simp only [Bool.false_eq_true, if_false]
    unfold storeLocally
    cases hg : env.storage.getThrows <;> cases hs : env.storage.setThrows <;>
      cases hi : env.storage.item <;> simp [delays]
  · simp [delays]

/-- C3 amended, at a run where the secondary store fails too. -/
theorem backoff_delays_all_fail_witness :
    delays (saveFormSubmission ((Collector.new "s1").init true true)
        ⟨"t0", fun _ => false, false, {}⟩ { phone := some "9876543210" }).trace
      = [1000 * 1, 1000 * 2] :=
  backoff_delays_all_fail ((Collector.new "s1").init true true)
    ⟨"t0", fun _ => false, false, {}⟩ { phone := some "9876543210" } rfl
    (Or.inr (Or.inr (Or.inl rfl))) rfl (fun _ _ _ => rfl)


/-- C4: on a collector with consent given and the primary store configured, if the first
`k - 1` primary writes fail and the `k`-th succeeds (`k` = 1, 2 or 3), a valid submission
causes exactly `k` primary write attempts, no secondary call, no change to local storage,
and the promise resolves. -/
theorem saveFormSubmission_primary_delivers (c : Collector) (env : Env) (fd : FormPayload)
    (k : Nat) (hk1 : 1 ≤ k) (hk3 : k ≤ 3)
    (hc : c.consentGiven = true) (hv : fd.valid) (hdb : c.db = true)
    (hfail : ∀ j, 1 ≤ j → j < k → env.primaryOk j = false)
    (hok : env.primaryOk k = true) :
    (saveFormSubmission c env fd).settlement = .resolved ∧
      primaryWrites (saveFormSubmission c env fd).trace = k ∧
      secondaryWrites (saveFormSubmission c env fd).trace = 0 ∧
      (saveFormSubmission c env fd).storage = env.storage := by
  rw [saveFormSubmission_valid c env fd hc hv]
  have hcases : k = 1 ∨ k = 2 ∨ k = 3 := by omega
  rcases hcases with rfl | rfl | rfl
  · simp [hdb, retryLoop, hok, primaryWrites, secondaryWrites]
  · have h1 := hfail 1 (by omega) (by omega)
    simp [hdb, retryLoop, hok, h1, primaryWrites, secondaryWrites]
  · have h1 := hfail 1 (by omega) (by omega)
    have h2 := hfail 2 (by omega) (by omega)
    simp [hdb, retryLoop, hok, h1, h2, primaryWrites, secondaryWrites]

/-- C4 at a run whose first primary write fails and second succeeds. -/
theorem saveFormSubmission_primary_delivers_witness :
    (saveFormSubmission ((Collector.new "s1").init true true)
        ⟨"t0", fun j => decide (j = 2), false, {}⟩ { name := some "Asha" }).settlement
        = .resolved ∧
      primaryWrites (saveFormSubmission ((Collector.new "s1").init true true)
        ⟨"t0", fun j => decide (j = 2), false, {}⟩ { name := some "Asha" }).trace = 2 ∧
      secondaryWrites (saveFormSubmission ((Collector.new "s1").init true true)
        ⟨"t0", fun j => decide (j = 2), false, {}⟩ { name := some "Asha" }).trace = 0 ∧
      (saveFormSubmission ((Collector.new "s1").init true true)
        ⟨"t0", fun j => decide (j = 2), false, {}⟩ { name := some "Asha" }).storage = {} :=
  saveFormSubmission_primary_delivers ((Collector.new "s1").init true true)
    ⟨"t0", fun j => decide (j = 2), false, {}⟩ { name := some "Asha" } 2 (by decide) (by decide)
    rfl (Or.inl rfl) rfl (fun j h1 h2 => by simp; omega) (by decide)

/-- C5: on a collector with consent given, when the primary store is absent or fails its
three attempts, the secondary write fails, and local storage can be read and written, a
valid submission ends with the pending queue equal to the queue before followed by the
submission payload, and the promise resolves. -/
theorem saveFormSubmission_queues (c : Collector) (env : Env) (fd : FormPayload)
    (hc : c.consentGiven = true) (hv : fd.valid)
    (hprim : c.db = false ∨ ∀ k, 1 ≤ k → k ≤ 3 → env.primaryOk k = false)
    (hsec : env.secondaryOk = false)
    (hread : env.storage.getThrows = false) (hparse : env.storage.item ≠ .unusable)
    (hwrite : env.storage.setThrows = false) :
    (saveFormSubmission c env fd).settlement = .resolved ∧
      (saveFormSubmission c env fd).storage.pending =
        env.storage.pending ++ [submissionData c env.now fd] := by
  rw [saveFormSubmission_valid c env fd hc hv]
  have hp : (if c.db then retryLoop env.primaryOk (submissionData c env.now fd) 3 4 1
      else (false, [])).1 = false := by
    rcases hprim with h | h
    · simp [h]
    · have h1 := h 1 (by omega) (by omega)
      have h2 := h 2 (by omega) (by omega)
      have h3 := h 3 (by omega) (by omega)
      split <;> simp [retryLoop_all_fail _ _ h1 h2 h3]
  simp only [hp, hsec, Bool.false_eq_true, if_false]
  unfold storeLocally
  cases hi : env.storage.item with
  | unusable => exact absurd hi hparse
  | absent => simp [hread, hwrite, LocalStorage.pending, hi]
  | array q => simp [hread, hwrite, LocalStorage.pending, hi]

/-- C5 at a run with no primary store, a failing secondary store and one entry already
queued: the new payload is appended after the old one. -/
theorem saveFormSubmission_queues_witness :
    (saveFormSubmission ((Collector.new "s1").init false false)
        ⟨"t1", fun _ => false, false,
          { item := .array [submissionData ((Collector.new "s0").init false false) "t0"
              { name := some "Ravi" }] }⟩
        { name := some "Asha" }).settlement = .resolved ∧
      (saveFormSubmission ((Collector.new "s1").init false false)
        ⟨"t1", fun _ => false, false,
          { item := .array [submissionData ((Collector.new "s0").init false false) "t0"
              { name := some "Ravi" }] }⟩
        { name := some "Asha" }).storage.pending =
        LocalStorage.pending
          { item := .array [submissionData ((Collector.new "s0").init false false) "t0"
              { name := some "Ravi" }] } ++
          [submissionData ((Collector.new "s1").init false false) "t1" { name := some "Asha" }] :=
  saveFormSubmission_queues ((Collector.new "s1").init false false)
    ⟨"t1", fun _ => false, false,
      { item := .array [submissionData ((Collector.new "s0").init false false) "t0"
          { name := some "Ravi" }] }⟩
    { name := some "Asha" } rfl (Or.inl rfl) (Or.inl rfl) rfl rfl (by decide) rfl

/-- C6, as stated, fails: with no primary store, a failing secondary store and a local
storage whose write throws, `saveFormSubmission` of a valid submission rejects. -/
theorem saveFormSubmission_can_reject :
    (saveFormSubmission ((Collector.new "s1").init false false)
        ⟨"t0", fun _ => false, false, { setThrows := true }⟩
        { name := some "Asha" }).settlement = .rejected := by
  decide

/-- C6 amended: `saveFormSubmission` rejects in exactly one situation, namely when consent
is given, the submission is valid, no primary attempt succeeded (store absent or three
failures), the secondary write failed, and the local-storage read, parse or write throws;
in every other combination of inputs and outcomes it resolves. -/
theorem saveFormSubmission_rejects_iff (c : Collector) (env : Env) (fd : FormPayload) :
    ((saveFormSubmission c env fd).settlement = .rejected ↔
      (c.consentGiven = true ∧ fd.valid ∧ primarySaved c env = false ∧
        env.secondaryOk = false ∧ env.storage.throws = true)) ∧
    ((saveFormSubmission c env fd).settlement = .resolved ↔
      ¬ (c.consentGiven = true ∧ fd.valid ∧ primarySaved c env = false ∧
        env.secondaryOk = false ∧ env.storage.throws = true)) := by
  have key : (saveFormSubmission c env fd).settlement = .rejected ↔
      (c.consentGiven = true ∧ fd.valid ∧ primarySaved c env = false ∧
        env.secondaryOk = false ∧ env.storage.throws = true) := by
    cases hc : c.consentGiven
    · simp [saveFormSubmission, hc]
    · by_cases hv : fd.valid
      · rw [saveFormSubmission_valid c env fd hc hv]
        have hp : (if c.db then retryLoop env.primaryOk (submissionData c env.now fd) 3 4 1
            else (false, [])).1 = primarySaved c env := by
          unfold primarySaved
          cases hdb : c.db <;> simp [retryLoop_saved]
        simp only [hp]
        cases hs : primarySaved c env
        · cases hsec : env.secondaryOk
          · simp only [Bool.false_eq_true, if_false, true_and, hv]
            unfold storeLocally LocalStorage.throws
            cases hg : env.storage.getThrows <;> cases hw : env.storage.setThrows <;>
              cases hi : env.storage.item <;> simp
          · simp
        · simp
      · have hval : (!truthy (submissionData c env.now fd).name &&
            !truthy (submissionData c env.now fd).phone) = true := by
          have := (validation_iff c env.now fd).not.mpr hv
          simpa using this
        unfold saveFormSubmission
        simp [hc, hval, hv]
  refine ⟨key, ?_⟩
  rw [← key]
  cases (saveFormSubmission c env fd).settlement <;> simp


/-! ## Form-type detection -/

/-- The button step computes the first matching group of step 1, `general` if none. -/
theorem buttonStep_eq (toLowerCase : String → String) (form : Form) (b : Element)
    (hb : form.querySelector selSubmit = some b) :
    buttonStep toLowerCase form = stepOneType (toLowerCase (buttonText b)) := by
  unfold buttonStep stepOneType
  simp only [hb]
  generalize toLowerCase (buttonText b) = t
  cases h1 : includes t "instant call" <;> cases h2 : includes t "call back" <;>
    cases h3 : includes t "brochure" <;> cases h4 : includes t "download" <;>
    cases h5 : includes t "enquiry" <;> cases h6 : includes t "chat" <;>
    cases h7 : includes t "send" <;>
    simp [firstMatchingGroup, buttonGroups, List.find?, h1, h2, h3, h4, h5, h6, h7]

/-- A type decided by the button is final: the later steps only act on `general`. -/
theorem formType_of_buttonStep (toLowerCase : String → String) (doc : Document) (form : Form)
    (h : buttonStep toLowerCase form ≠ .general) :
    formType toLowerCase doc form = buttonStep toLowerCase form := by
  unfold formType modalStep enquiredForStep
  simp [h]

/-- A group found by `firstMatchingGroup` among the groups used here is never `general`. -/
theorem firstMatchingGroup_ne_general (groups : List KeywordGroup) (text : String) (g : FormType)
    (hgroups : ∀ grp ∈ groups, grp.1 ≠ .general)
    (h : firstMatchingGroup groups text = some g) : g ≠ .general := by
  unfold firstMatchingGroup at h
  cases hf : groups.find? (fun g => g.2.any fun k => includes text k) with
  | none => simp [hf] at h
  | some grp =>
    simp only [hf, Option.map_some', Option.some.injEq] at h
    rw [← h]
    exact hgroups grp (List.mem_of_find?_eq_some hf)

/-- C7: when the lower-cased submit-button text contains a keyword of one of the three
groups, the formType is the first matching group in the order call_back, brochure, chat,
whatever the form id, the modal, the modal trigger and the hidden field contain. -/
theorem formType_button_text_wins (toLowerCase : String → String) (doc : Document)
    (form : Form) (b : Element)
    (hb : form.querySelector selSubmit = some b)
    (hkw : ∃ grp ∈ buttonGroups, ∃ k ∈ grp.2, includes (toLowerCase (buttonText b)) k = true) :
    ∃ g, firstMatchingGroup buttonGroups (toLowerCase (buttonText b)) = some g ∧
      g ≠ .general ∧ formType toLowerCase doc form = g := by
  have hstep := buttonStep_eq toLowerCase form b hb
  cases hf : firstMatchingGroup buttonGroups (toLowerCase (buttonText b)) with
  | none =>
    exfalso
    unfold firstMatchingGroup at hf
    simp only [Option.map_eq_none', List.find?_eq_none] at hf
    obtain ⟨grp, hgrp, k, hk, hin⟩ := hkw
    exact hf grp hgrp (List.any_eq_true.mpr ⟨k, hk, hin⟩)
  | some g =>
    have hg : g ≠ .general :=
      firstMatchingGroup_ne_general buttonGroups _ g (by simp [buttonGroups]) hf
    refine ⟨g, rfl, hg, ?_⟩
    have hbs : buttonStep toLowerCase form = g := by
      rw [hstep]; unfold stepOneType; rw [hf]; rfl
    rw [formType_of_buttonStep toLowerCase doc form (by rw [hbs]; exact hg), hbs]

/-- C7 at the example of the specification: button "Download Brochure" with hidden field
"instant call", inside the marketing modal titled "Instant Call Back", gives brochure. -/
theorem formType_button_text_wins_witness :
    formType asciiLower
        { modal := some { title := some "Instant Call Back" },
          modalTrigger := some { dataTitle := some "Instant Call" } }
        { id := "pardotForm",
          elements := [{ tag := "input", name := "enquiredfor", value := "instant call" },
            { tag := "button", type := "submit", textContent := "Download Brochure" }] }
      = .brochure := by
  obtain ⟨g, hg, -, hf⟩ := formType_button_text_wins asciiLower
    { modal := some { title := some "Instant Call Back" },
      modalTrigger := some { dataTitle := some "Instant Call" } }
    { id := "pardotForm",
      elements := [{ tag := "input", name := "enquiredfor", value := "instant call" },
        { tag := "button", type := "submit", textContent := "Download Brochure" }] }
    { tag := "button", type := "submit", textContent := "Download Brochure" } (by decide)
    ⟨(.brochure, ["brochure", "download"]), by decide, "brochure", by decide, by decide⟩
  have hb : firstMatchingGroup buttonGroups (asciiLower (buttonText
      { tag := "button", type := "submit", textContent := "Download Brochure" }))
      = some .brochure := by decide
  rw [hb] at hg
  cases hg
  exact hf


/-- The title step computes the first matching group of `modalTitleGroups`. -/
theorem modalTitleStep_eq (toLowerCase : String → String) (modal : Modal) (title : String)
    (ft : FormType) (ht : modal.title = some title) :
    modalTitleStep toLowerCase modal ft =
      (firstMatchingGroup modalTitleGroups (toLowerCase title)).getD ft := by
  unfold modalTitleStep
  simp only [ht]
  generalize toLowerCase title = t
  cases h1 : includes t "brochure" <;> cases h2 : includes t "download" <;>
    cases h3 : includes t "chat" <;> cases h4 : includes t "enquiry" <;>
    cases h5 : includes t "call" <;> cases h6 : includes t "instant" <;>
    simp [firstMatchingGroup, modalTitleGroups, List.find?, h1, h2, h3, h4, h5, h6]

/-- The trigger step, entered with `general`, computes the first matching group of
`modalTriggerGroups`. -/
theorem modalTriggerStep_eq (toLowerCase : String → String) (doc : Document)
    (tr : ModalTrigger) (htr : doc.modalTrigger = some tr) :
    modalTriggerStep toLowerCase doc .general =
      (firstMatchingGroup modalTriggerGroups (toLowerCase (triggerAttributes tr))).getD
        .general := by
  unfold modalTriggerStep
  simp only [htr]
  generalize toLowerCase (triggerAttributes tr) = t
  cases h1 : includes t "call" <;> cases h2 : includes t "instant" <;>
    cases h3 : includes t "brochure" <;> cases h4 : includes t "enquiry" <;>
    cases h5 : includes t "chat" <;>
    simp [firstMatchingGroup, modalTriggerGroups, List.find?, h1, h2, h3, h4, h5]

/-- The trigger step leaves a decided type alone. -/
theorem modalTriggerStep_decided (toLowerCase : String → String) (doc : Document)
    (ft : FormType) (h : ft ≠ .general) : modalTriggerStep toLowerCase doc ft = ft := by
  unfold modalTriggerStep
  cases doc.modalTrigger <;> simp [h]

/-- The hidden-field step leaves a decided type alone. -/
theorem enquiredForStep_decided (toLowerCase : String → String) (form : Form)
    (ft : FormType) (h : ft ≠ .general) : enquiredForStep toLowerCase form ft = ft := by
  unfold enquiredForStep
  simp [h]

/-- C8, as stated, fails.  In the marketing modal with an undecided button, the title
"Request a Call" gives call_back although the button classifier finds no keyword in it,
and the title "Download brochure or call back" gives brochure although the button
classifier gives call_back: the keywords and the order of the groups both differ. -/
theorem modal_title_differs_from_button_classifier :
    (formType asciiLower { modal := some { title := some "Request a Call" } }
        { id := "pardotForm",
          elements := [{ tag := "button", type := "submit", textContent := "Submit" }] }
        = .call_back ∧
      stepOneType (asciiLower "Request a Call") = .general) ∧
    (formType asciiLower { modal := some { title := some "Download brochure or call back" } }
        { id := "pardotForm",
          elements := [{ tag := "button", type := "submit", textContent := "Submit" }] }
        = .brochure ∧
      stepOneType (asciiLower "Download brochure or call back") = .call_back) := by
  decide

/-- C8 amended: when the button decides nothing and the form is `pardotForm` with an active
modal, a modal title containing a keyword gives the first matching group in the order
brochure ("brochure"/"download"), chat ("chat"/"enquiry"), call_back ("call"/"instant");
when the title is missing or contains none of these, a modal trigger whose attribute text
contains a keyword gives the first matching group in the order call_back
("call"/"instant"), brochure ("brochure"), chat ("enquiry"/"chat"). -/
theorem formType_from_modal (toLowerCase : String → String) (doc : Document) (form : Form)
    (modal : Modal)
    (hbtn : buttonStep toLowerCase form = .general) (hid : form.id = "pardotForm")
    (hmodal : doc.modal = some modal) :
    (∀ title g, modal.title = some title →
        firstMatchingGroup modalTitleGroups (toLowerCase title) = some g →
        formType toLowerCase doc form = g) ∧
    (∀ tr g,
        (modal.title = none ∨ ∃ title, modal.title = some title ∧
          firstMatchingGroup modalTitleGroups (toLowerCase title) = none) →
        doc.modalTrigger = some tr →
        firstMatchingGroup modalTriggerGroups (toLowerCase (triggerAttributes tr)) = some g →
        formType toLowerCase doc form = g) := by
  have hform : formType toLowerCase doc form =
      enquiredForStep toLowerCase form
        (modalTriggerStep toLowerCase doc (modalTitleStep toLowerCase modal .general)) := by
    unfold formType modalStep
    simp [hbtn, hid, hmodal]
  constructor
  · intro title g ht hg
    have hne : g ≠ .general :=
      firstMatchingGroup_ne_general modalTitleGroups _ g (by simp [modalTitleGroups]) hg
    rw [hform, modalTitleStep_eq toLowerCase modal title .general ht, hg]
    simp only [Option.getD_some]
    rw [modalTriggerStep_decided toLowerCase doc g hne,
      enquiredForStep_decided toLowerCase form g hne]
  · intro tr g htitle htr hg
    have hne : g ≠ .general :=
      firstMatchingGroup_ne_general modalTriggerGroups _ g (by simp [modalTriggerGroups]) hg
    have hts : modalTitleStep toLowerCase modal .general = .general := by
      rcases htitle with h | ⟨title, h, hnone⟩
      · unfold modalTitleStep; simp [h]
      · rw [modalTitleStep_eq toLowerCase modal title .general h, hnone]; rfl
    rw [hform, hts, modalTriggerStep_eq toLowerCase doc tr htr, hg]
    simp only [Option.getD_some]
    exact enquiredForStep_decided toLowerCase form g hne

/-- C8 amended, at the marketing modal titled "Get a call" whose trigger carries
`data-enquiry="Brochure"`: the title decides, and the type is call_back. -/
theorem formType_from_modal_witness :
    firstMatchingGroup modalTitleGroups (asciiLower "Get a call") = some .call_back ∧
      formType asciiLower
        { modal := some { title := some "Get a call" },
          modalTrigger := some { dataEnquiry := some "Brochure" } }
        { id := "pardotForm",
          elements := [{ tag := "button", type := "submit", textContent := "Submit" }] }
        = .call_back :=
  ⟨by decide,
    (formType_from_modal asciiLower
      { modal := some { title := some "Get a call" },
        modalTrigger := some { dataEnquiry := some "Brochure" } }
      { id := "pardotForm",
        elements := [{ tag := "button", type := "submit", textContent := "Submit" }] }
      { title := some "Get a call" } (by decide) rfl rfl).1 "Get a call" .call_back rfl
      (by decide)⟩

/-- C9, as stated, fails: with no button and no modal, the hidden value "Call" gives
call_back although it contains no keyword of the three groups of step 1. -/
theorem enquiredfor_differs_from_button_classifier :
    formType asciiLower {}
        { elements := [{ tag := "input", name := "enquiredfor", value := "Call" }] }
        = .call_back ∧
      stepOneType (asciiLower "Call") = .general := by
  decide

/-- C9 amended: when neither the button nor the modal context decides, a non-empty hidden
`enquiredfor` value gives call_back if its lower-cased text contains "call" or "instant",
otherwise brochure if it contains "brochure"; a value containing none of the keywords
call, instant, brochure, download, enquiry, chat, send, an empty value and a missing field
give general. -/
theorem formType_from_enquiredfor (toLowerCase : String → String) (doc : Document)
    (form : Form)
    (hprev : modalStep toLowerCase doc form (buttonStep toLowerCase form) = .general) :
    (∀ e g, form.querySelector selEnquiredFor = some e → e.value ≠ "" →
        firstMatchingGroup enquiredForGroups (toLowerCase e.value) = some g →
        formType toLowerCase doc form = g) ∧
    (∀ e, form.querySelector selEnquiredFor = some e →
        (∀ k ∈ ["call", "instant", "brochure", "download", "enquiry", "chat", "send"],
          includes (toLowerCase e.value) k = false) →
        formType toLowerCase doc form = .general) ∧
    (∀ e, form.querySelector selEnquiredFor = some e → e.value = "" →
        formType toLowerCase doc form = .general) ∧
    (form.querySelector selEnquiredFor = none → formType toLowerCase doc form = .general) := by
  unfold formType
  rw [hprev]
  unfold enquiredForStep
  refine ⟨?_, ?_, ?_, ?_⟩
  · intro e g he hv hg
    simp only [he, if_true]
    generalize toLowerCase e.value = t at hg ⊢
    cases h1 : includes t "call" <;> cases h2 : includes t "instant" <;>
      cases h3 : includes t "brochure" <;>
      simp [firstMatchingGroup, enquiredForGroups, List.find?, h1, h2, h3, hv] at hg ⊢ <;>
      exact hg
  · intro e he hk
    have h1 := hk "call" (by simp)
    have h2 := hk "instant" (by simp)
    have h3 := hk "brochure" (by simp)
    simp [he, h1, h2, h3]
  · intro e he hv
    simp [he, hv]
  · intro he
    simp [he]

/-- C9 amended, at a form with no button and no modal whose hidden field reads
"Download Brochure": the type is brochure. -/
theorem formType_from_enquiredfor_witness :
    firstMatchingGroup enquiredForGroups (asciiLower "Download Brochure") = some .brochure ∧
      formType asciiLower {}
        { elements :=
            [{ tag := "input", name := "enquiredfor", value := "Download Brochure" }] }
        = .brochure :=
  ⟨by decide,
    (formType_from_enquiredfor asciiLower {}
      { elements :=
          [{ tag := "input", name := "enquiredfor", value := "Download Brochure" }] }
      (by decide)).1
      { tag := "input", name := "enquiredfor", value := "Download Brochure" } .brochure
      (by decide) (by decide) (by decide)⟩


/-! ## Phone normalisation -/

theorem isDigit_ne_plus {c : Char} (h : isDigit c = true) : c ≠ '+' := by
  rintro rfl; revert h; decide

theorem isDigit_ne_space {c : Char} (h : isDigit c = true) : c ≠ ' ' := by
  rintro rfl; revert h; decide

theorem isDigit_ne_hyphen {c : Char} (h : isDigit c = true) : c ≠ '-' := by
  rintro rfl; revert h; decide

theorem isBody_of_digit {c : Char} (h : isDigit c = true) : isBody c = true := by
  simp [isBody, h]

/-- A match of `\d[\d\s-]{8,}\d` needs ten characters. -/
theorem matchDigits_length {s m : List Char} (h : matchDigits s = some m) : 10 ≤ s.length := by
  cases s with
  | nil => simp [matchDigits] at h
  | cons d rest =>
    unfold matchDigits at h
    by_cases hd : isDigit d = true
    · simp only [hd, if_true] at h
      by_cases hl : 9 ≤ ((rest.takeWhile isBody).rdropWhile fun c => !isDigit c).length
      · have h1 : ((rest.takeWhile isBody).rdropWhile fun c => !isDigit c).length
            ≤ (rest.takeWhile isBody).length :=
          (List.rdropWhile_prefix _ _).length_le
        have h2 : (rest.takeWhile isBody).length ≤ rest.length :=
          (List.takeWhile_prefix _).length_le
        simp only [List.length_cons]
        omega
      · simp [hl] at h
    · simp [hd] at h

/-- No match in a string of nine characters or fewer. -/
theorem phoneMatch_short (s : List Char) (h : s.length ≤ 9) : phoneMatch s = none := by
  induction s with
  | nil => rfl
  | cons c cs ih =>
    have hcs : cs.length ≤ 9 := by simp only [List.length_cons] at h; omega
    have hat : matchAt (c :: cs) = none := by
      unfold matchAt
      by_cases hc : c = '+'
      · simp only [hc, if_true]
        cases hm : matchDigits cs with
        | none => rfl
        | some m =>
          have := matchDigits_length hm
          simp only [List.length_cons] at h
          omega
      · simp only [hc, if_false]
        cases hm : matchDigits (c :: cs) with
        | none => rfl
        | some m =>
          have := matchDigits_length hm
          omega
    unfold phoneMatch
    rw [hat]
    exact ih hcs

/-- What `phoneLikeBody` says, as propositions. -/
theorem phoneLikeBody_spec {body : List Char} (h : phoneLikeBody body = true) :
    (∀ c ∈ body, isDigit c = true ∨ c = ' ' ∨ c = '-') ∧
      (∃ d rest, body = d :: rest ∧ isDigit d = true) ∧
      (∀ hne : body ≠ [], isDigit (body.getLast hne) = true) ∧
      9 ≤ (body.filter isDigit).length := by
  unfold phoneLikeBody at h
  simp only [Bool.and_eq_true, List.all_eq_true, Bool.or_eq_true, beq_iff_eq,
    decide_eq_true_eq] at h
  obtain ⟨⟨⟨hall, hhead⟩, hlast⟩, hcount⟩ := h
  refine ⟨fun c hc => ?_, ?_, ?_, hcount⟩
  · rcases hall c hc with (h1 | h1) | h1
    · exact Or.inl h1
    · exact Or.inr (Or.inl h1)
    · exact Or.inr (Or.inr h1)
  · cases body with
    | nil => simp at hhead
    | cons d rest => exact ⟨d, rest, rfl, by simpa using hhead⟩
  · intro hne
    rw [List.getLast?_eq_getLast _ hne] at hlast
    simpa using hlast

/-- A phone-like body of ten characters or more is matched whole. -/
theorem matchDigits_body {body : List Char} (h : phoneLikeBody body = true)
    (hlen : 10 ≤ body.length) : matchDigits body = some body := by
  obtain ⟨hall, ⟨d, rest, rfl, hd⟩, hlast, -⟩ := phoneLikeBody_spec h
  have hrest : rest ≠ [] := by
    intro hnil; simp [hnil] at hlen
  have htake : rest.takeWhile isBody = rest := by
    rw [List.takeWhile_eq_self_iff]
    intro c hc
    rcases hall c (List.mem_cons_of_mem _ hc) with h1 | h1 | h1
    · exact isBody_of_digit h1
    · subst h1; decide
    · subst h1; decide
  have hdrop : (rest.rdropWhile fun c => !isDigit c) = rest := by
    rw [List.rdropWhile_eq_self_iff]
    intro hl
    have := hlast (List.cons_ne_nil d rest)
    rw [List.getLast_cons hrest] at this
    simp [this]
  unfold matchDigits
  simp only [hd, if_true, htake, hdrop]
  have : 9 ≤ rest.length := by simp only [List.length_cons] at hlen; omega
  simp [this]

/-- On digits, spaces, hyphens and `+`, keeping digits and `+` is dropping spaces and
hyphens. -/
theorem filter_keep_eq_strip (l : List Char)
    (h : ∀ c ∈ l, isDigit c = true ∨ c = ' ' ∨ c = '-' ∨ c = '+') :
    (l.filter fun c => isDigit c || c == '+') = l.filter fun c => c != ' ' && c != '-' := by
  apply List.filter_congr
  intro c hc
  rcases h c hc with h1 | h1 | h1 | h1
  · simp [h1, isDigit_ne_space h1, isDigit_ne_hyphen h1]
  · subst h1; decide
  · subst h1; decide
  · subst h1; decide

/-- A phone-like body of nine characters or fewer consists of digits only. -/
theorem phoneLikeBody_short {body : List Char} (h : phoneLikeBody body = true)
    (hlen : body.length ≤ 9) : ∀ c ∈ body, isDigit c = true := by
  obtain ⟨-, -, -, hcount⟩ := phoneLikeBody_spec h
  have hle := List.length_filter_le isDigit body
  have heq : (body.filter isDigit).length = body.length := by omega
  exact List.filter_length_eq_length.mp heq

/-- The normalisation on C10's raw values removes exactly the spaces and hyphens. -/
theorem normalizePhone_phoneLike (raw : String) (h : phoneLike raw.data = true) :
    normalizePhone raw = stripSeparators raw := by
  obtain ⟨l⟩ := raw
  simp only at h
  unfold normalizePhone stripSeparators
  simp only
  cases l with
  | nil => simp [phoneLike] at h
  | cons c cs =>
    unfold phoneLike at h
    by_cases hc : c = '+'
    · simp only [hc, if_true] at h
      subst hc
      obtain ⟨hall, -, -, -⟩ := phoneLikeBody_spec h
      by_cases hlen : 10 ≤ cs.length
      · have hm : phoneMatch ('+' :: cs) = some ('+' :: cs) := by
          unfold phoneMatch matchAt
          simp [matchDigits_body h hlen]
        rw [hm]
        refine congrArg String.mk ?_
        apply filter_keep_eq_strip
        intro x hx
        rcases List.mem_cons.mp hx with h1 | h1
        · exact Or.inr (Or.inr (Or.inr h1))
        · rcases hall x h1 with h2 | h2 | h2
          · exact Or.inl h2
          · exact Or.inr (Or.inl h2)
          · exact Or.inr (Or.inr (Or.inl h2))
      · have hdig := phoneLikeBody_short h (by omega)
        have hm : phoneMatch ('+' :: cs) = none := by
          unfold phoneMatch matchAt
          simp only [if_true]
          cases hmd : matchDigits cs with
          | none => exact phoneMatch_short cs (by omega)
          | some m => have := matchDigits_length hmd; omega
        rw [hm]
        refine congrArg String.mk ?_
        symm
        rw [List.filter_eq_self]
        intro x hx
        rcases List.mem_cons.mp hx with h1 | h1
        · subst h1; decide
        · have := hdig x h1
          simp [isDigit_ne_space this, isDigit_ne_hyphen this]
    · simp only [hc, if_false] at h
      obtain ⟨hall, ⟨d, rest, hcons, hd⟩, -, -⟩ := phoneLikeBody_spec h
      by_cases hlen : 10 ≤ (c :: cs).length
      · have hm : phoneMatch (c :: cs) = some (c :: cs) := by
          unfold phoneMatch matchAt
          simp [hc, matchDigits_body h hlen]
        rw [hm]
        refine congrArg String.mk ?_
        apply filter_keep_eq_strip
        intro x hx
        rcases hall x hx with h2 | h2 | h2
        · exact Or.inl h2
        · exact Or.inr (Or.inl h2)
        · exact Or.inr (Or.inr (Or.inl h2))
      · have hdig := phoneLikeBody_short h (by omega)
        rw [phoneMatch_short (c :: cs) (by omega)]
        refine congrArg String.mk ?_
        symm
        rw [List.filter_eq_self]
        intro x hx
        have := hdig x hx
        simp [isDigit_ne_space this, isDigit_ne_hyphen this]

/-- C10: when the raw phone value picked by `extractContactFields` is an optional leading
`+` followed by digits with interior spaces and hyphens, a digit first and last and at
least nine digits, the phone returned is the raw value with every space and hyphen
removed; the leading `+` is there exactly when the raw value had it. -/
theorem extractContactFields_normalizes_phone (form : Form) (data : String → Option String)
    (raw : String) (hraw : rawPhone form data = some raw) (hshape : phoneLike raw.data = true) :
    (extractContactFields form data).phone = some (stripSeparators raw) ∧
      ((stripSeparators raw).data.head? = some '+' ↔ raw.data.head? = some '+') := by
  have hne : truthy (some raw) = true := by
    obtain ⟨l⟩ := raw
    cases l with
    | nil => simp [phoneLike] at hshape
    | cons c cs =>
      simp only [truthy, bne_iff_ne, ne_eq]
      intro hcontra
      have := congrArg String.data hcontra
      simp at this
  constructor
  · unfold extractContactFields
    simp only [hraw, hne, if_true, normalizePhone_phoneLike raw hshape]
  · obtain ⟨l⟩ := raw
    cases l with
    | nil => simp [phoneLike] at hshape
    | cons c cs =>
      unfold stripSeparators
      simp only [List.head?_cons, Option.some.injEq]
      unfold phoneLike at hshape
      by_cases hc : c = '+'
      · subst hc
        simp [List.filter_cons]
      · simp only [hc, if_false] at hshape
        obtain ⟨-, ⟨d, rest, hcons, hd⟩, -, -⟩ := phoneLikeBody_spec hshape
        have hcd : c = d := (List.cons.inj hcons).1
        subst hcd
        have h1 := isDigit_ne_space hd
        have h2 := isDigit_ne_hyphen hd
        simp [List.filter_cons, h1, h2]

/-- C10 at the example of the specification: "+91 98765 43210" under the key `phone`
becomes "+919876543210". -/
theorem extractContactFields_normalizes_phone_witness :
    (extractContactFields {} (fun k => if k = "phone" then some "+91 98765 43210" else none)).phone
        = some "+919876543210" :=
  (extractContactFields_normalizes_phone {}
    (fun k => if k = "phone" then some "+91 98765 43210" else none) "+91 98765 43210"
    (by decide) (by decide)).1

end DataCollector

namespace DataCollector

/-! ## Shape of the extracted phone -/

/-- A match of `\d[\d\s-]{8,}\d` starts with a digit and stays inside the class. -/
theorem matchDigits_shape {s m : List Char} (h : matchDigits s = some m) :
    ∃ d t, m = d :: t ∧ isDigit d = true ∧ ∀ c ∈ t, isBody c = true := by
  cases s with
  | nil => simp [matchDigits] at h
  | cons d rest =>
    unfold matchDigits at h
    by_cases hd : isDigit d = true
    · simp only [hd, if_true] at h
      by_cases hl : 9 ≤ ((rest.takeWhile isBody).rdropWhile fun c => !isDigit c).length
      · simp only [hl, if_true, Option.some.injEq] at h
        refine ⟨d, _, h.symm, hd, fun c hc => ?_⟩
        exact List.mem_takeWhile_imp ((List.rdropWhile_prefix _ _).mem hc)
      · simp [hl] at h
    · simp [hd] at h

/-- Keeping digits and `+` in a match of `\d[\d\s-]{8,}\d` leaves digits only. -/
theorem filter_matchDigits {s m : List Char} (h : matchDigits s = some m) :
    ∃ d t, (m.filter fun c => isDigit c || c == '+') = d :: t ∧ isDigit d = true ∧
      t.all isDigit = true := by
  obtain ⟨d, t, rfl, hd, ht⟩ := matchDigits_shape h
  refine ⟨d, t.filter fun c => isDigit c || c == '+', by simp [List.filter_cons, hd], hd, ?_⟩
  rw [List.all_eq_true]
  intro c hc
  have hmem := List.mem_filter.mp hc
  have hb := ht c hmem.1
  have hkeep := hmem.2
  by_cases hplus : c = '+'
  · subst hplus; revert hb; decide
  · simpa [hplus] using hkeep

/-- Capture group 1 with everything but digits and `+` removed is a normalised phone. -/
theorem filter_phoneMatch (s m : List Char) (h : phoneMatch s = some m) :
    isNormalizedPhone ⟨m.filter fun c => isDigit c || c == '+'⟩ = true := by
  induction s with
  | nil => simp [phoneMatch] at h
  | cons c cs ih =>
    unfold phoneMatch at h
    cases hat : matchAt (c :: cs) with
    | none =>
      rw [hat] at h
      exact ih h
    | some m1 =>
      rw [hat] at h
      simp only [Option.some.injEq] at h
      subst h
      unfold matchAt at hat
      by_cases hc : c = '+'
      · simp only [hc, if_true] at hat
        cases hmd : matchDigits cs with
        | none => simp [hmd] at hat
        | some m2 =>
          simp only [hmd, Option.map_some', Option.some.injEq] at hat
          subst hat
          obtain ⟨d, t, hf, hd, ht⟩ := filter_matchDigits hmd
          have hfil : (List.filter (fun c => isDigit c || c == '+') ('+' :: m2))
              = '+' :: d :: t := by
            rw [List.filter_cons]
            simp [hf]
          rw [hfil]
          simp [isNormalizedPhone, hd, ht]
      · simp only [hc, if_false] at hat
        obtain ⟨d, t, hf, hd, ht⟩ := filter_matchDigits hat
        rw [hf]
        simp [isNormalizedPhone, hd, ht]

/-- C11, as stated, fails: the phone value "call 12 34" contains no match of the pattern
and is returned unchanged, letters and spaces included. -/
theorem extracted_phone_may_keep_other_characters :
    (extractContactFields {} (fun k => if k = "phone" then some "call 12 34" else none)).phone
        = some "call 12 34" ∧
      isNormalizedPhone "call 12 34" = false := by
  decide

/-- A value produced by `a || null` is `null` or truthy. -/
theorem jsOr_none_cases (a : Option String) :
    jsOr a none = none ∨ truthy (jsOr a none) = true := by
  unfold jsOr
  cases h : truthy a <;> simp [h]

/-- A fallback lookup keeps a value that is `null` or truthy of that kind. -/
theorem fallbackValue_cases (form : Form) (sel : Element → Bool) (cur : Option String)
    (h : cur = none ∨ truthy cur = true) :
    fallbackValue form sel cur = none ∨ truthy (fallbackValue form sel cur) = true := by
  unfold fallbackValue
  rcases h with h | h
  · subst h
    simp only [truthy_none, Bool.not_false, if_true]
    cases hq : form.querySelector sel with
    | none => exact Or.inl rfl
    | some el =>
      by_cases hv : el.value = ""
      · simp [hv]
      · simp [hv, truthy]
  · simp [h]

/-- The raw phone picked by lines 484-495 is `null` or a non-empty string. -/
theorem rawPhone_cases (form : Form) (data : String → Option String) :
    rawPhone form data = none ∨ truthy (rawPhone form data) = true := by
  unfold rawPhone
  exact fallbackValue_cases form selPhoneName _ (fallbackValue_cases form selTel _
    (jsOr_none_cases _))

/-- C11 amended: a non-null phone returned by `extractContactFields` comes from a raw value;
when that raw value contains a match of the pattern, the phone consists of decimal digits
only, optionally preceded by one leading `+`; when it contains no match, the phone is the
raw value unchanged. -/
theorem extractContactFields_phone_shape (form : Form) (data : String → Option String)
    (p : String) (hp : (extractContactFields form data).phone = some p) :
    ∃ raw, rawPhone form data = some raw ∧
      ((phoneMatch raw.data ≠ none ∧ isNormalizedPhone p = true) ∨
        (phoneMatch raw.data = none ∧ p = raw)) := by
  cases hraw : rawPhone form data with
  | none =>
    unfold extractContactFields at hp
    simp [hraw] at hp
  | some raw =>
    have htr : truthy (some raw) = true := by
      rcases rawPhone_cases form data with h | h
      · rw [hraw] at h; exact absurd h (by simp)
      · rw [hraw] at h; exact h
    have hphone : (extractContactFields form data).phone = some (normalizePhone raw) := by
      unfold extractContactFields
      simp only [hraw, htr, if_true]
    rw [hphone, Option.some.injEq] at hp
    refine ⟨raw, rfl, ?_⟩
    cases hpm : phoneMatch raw.data with
    | none =>
      right
      refine ⟨rfl, ?_⟩
      rw [← hp]
      unfold normalizePhone
      rw [hpm]
    | some m =>
      left
      refine ⟨by simp, ?_⟩
      rw [← hp]
      unfold normalizePhone
      rw [hpm]
      exact filter_phoneMatch raw.data m hpm

/-- C11 amended, at a value with a match inside other text: "Tel: +91 98765-43210 (home)"
gives "+919876543210", which is a normalised phone. -/
theorem extractContactFields_phone_shape_witness :
    (extractContactFields {}
        (fun k => if k = "mobile" then some "Tel: +91 98765-43210 (home)" else none)).phone
        = some "+919876543210" ∧
      isNormalizedPhone "+919876543210" = true := by
  refine ⟨by decide, ?_⟩
  obtain ⟨raw, hraw, h⟩ := extractContactFields_phone_shape {}
    (fun k => if k = "mobile" then some "Tel: +91 98765-43210 (home)" else none)
    "+919876543210" (by decide)
  have hr : rawPhone {}
      (fun k => if k = "mobile" then some "Tel: +91 98765-43210 (home)" else none)
      = some "Tel: +91 98765-43210 (home)" := by decide
  rw [hr, Option.some.injEq] at hraw
  subst hraw
  rcases h with ⟨-, hn⟩ | ⟨hnone, -⟩
  · exact hn
  · exact absurd hnone (by decide)

/-! ## Order of the phone lookups -/

/-- C12, as stated, fails: with no phone under the exact and legacy keys, a text input
named "contact_phone" holding 9999999999 and a following `type="tel"` input holding
8888888888, the phone is taken from the `type="tel"` input. -/
theorem tel_input_precedes_name_lookup :
    (extractContactFields
        { entries := [("contact_phone", "9999999999"), ("whatsapp", "8888888888")],
          elements := [{ tag := "input", type := "text", name := "contact_phone",
                         value := "9999999999" },
                       { tag := "input", type := "tel", name := "whatsapp",
                         value := "8888888888" }] }
        (formDataObject
          { entries := [("contact_phone", "9999999999"), ("whatsapp", "8888888888")] })).phone
      = some "8888888888" := by
  decide

/-- C12 amended: when none of the exact and legacy phone keys has a non-empty value and the
first `type="tel"` input of the form has a non-empty value, the phone is taken from that
input (and then normalised), whatever inputs with a phone-like name the form has: the
`type="tel"` lookup precedes the name-substring lookup. -/
theorem extractContactFields_tel_first (form : Form) (data : String → Option String)
    (tel : Element)
    (hkeys : ∀ k ∈ ["phone", "mobile", "modal_my_mobile2", "modal_dg_mobile", "mobileconcat"],
      truthy (data k) = false)
    (htel : form.querySelector selTel = some tel) (hval : tel.value ≠ "") :
    rawPhone form data = some tel.value ∧
      (extractContactFields form data).phone = some (normalizePhone tel.value) := by
  have h1 := hkeys "phone" (by simp)
  have h2 := hkeys "mobile" (by simp)
  have h3 := hkeys "modal_my_mobile2" (by simp)
  have h4 := hkeys "modal_dg_mobile" (by simp)
  have h5 := hkeys "mobileconcat" (by simp)
  have htr : truthy (some tel.value) = true := by simp [truthy, hval]
  have hraw : rawPhone form data = some tel.value := by
    unfold rawPhone fallbackValue
    simp [jsOr, h1, h2, h3, h4, h5, truthy_none, htel, hval, htr]
  refine ⟨hraw, ?_⟩
  unfold extractContactFields
  simp only [hraw, htr, if_true]

/-- C12 amended, at the form of the counterexample. -/
theorem extractContactFields_tel_first_witness :
    rawPhone
        { elements := [{ tag := "input", type := "text", name := "contact_phone",
                         value := "9999999999" },
                       { tag := "input", type := "tel", name := "whatsapp",
                         value := "8888888888" }] }
        (fun _ => none) = some "8888888888" :=
  (extractContactFields_tel_first
    { elements := [{ tag := "input", type := "text", name := "contact_phone",
                     value := "9999999999" },
                   { tag := "input", type := "tel", name := "whatsapp",
                     value := "8888888888" }] }
    (fun _ => none) { tag := "input", type := "tel", name := "whatsapp", value := "8888888888" }
    (fun _ _ => rfl) (by decide) (by decide)).1

end DataCollector

namespace DataCollector

/-! ## Device detection -/

/-- The substring test agrees with the infix relation on character lists. -/
theorem includesChars_iff (s k : List Char) : includesChars s k = true ↔ k <:+: s := by
  induction s with
  | nil => simp [includesChars, List.isEmpty_iff]
  | cons c cs ih =>
    unfold includesChars
    rw [Bool.or_eq_true, ih, List.infix_cons_iff, List.isPrefixOf_iff_prefix]

/-- A substring stays a substring when both strings are lower-cased. -/
theorem includes_asciiLower {s k : String} (h : includes s k = true) :
    includes (asciiLower s) (asciiLower k) = true := by
  unfold includes at h ⊢
  rw [includesChars_iff] at h ⊢
  exact h.map Char.toLower

/-- A user agent containing one of the alternatives passes the case-insensitive test. -/
theorem testIgnoreCase_of_includes (alternatives : List String) (s a : String)
    (ha : a ∈ alternatives) (h : includes s a = true) : testIgnoreCase alternatives s = true := by
  unfold testIgnoreCase
  rw [List.any_eq_true]
  exact ⟨a, ha, includes_asciiLower h⟩

end DataCollector

namespace TrafficTracker

open DataCollector

/-- The two scripts classify devices by the same function. -/
theorem getDeviceType_eq (userAgent : String) :
    getDeviceType userAgent = detectDeviceType userAgent := rfl

end TrafficTracker

namespace DataCollector

/-- C13: a user agent that contains "Mobile" or "Android" is classified mobile by
`detectDeviceType` of the collector and by `getDeviceType` of the traffic tracker. -/
theorem device_mobile_of_mobile_or_android (userAgent : String)
    (h : includes userAgent "Mobile" = true ∨ includes userAgent "Android" = true) :
    detectDeviceType userAgent = .mobile ∧ TrafficTracker.getDeviceType userAgent = .mobile := by
  have ht : testIgnoreCase mobileTokens userAgent = true := by
    rcases h with h | h
    · exact testIgnoreCase_of_includes mobileTokens userAgent "Mobile" (by simp [mobileTokens]) h
    · exact testIgnoreCase_of_includes mobileTokens userAgent "Android" (by simp [mobileTokens]) h
  constructor
  · unfold detectDeviceType; simp [ht]
  · unfold TrafficTracker.getDeviceType; simp [ht]

/-- C13 at the user agent of an Android tablet, which also contains "Tablet". -/
theorem device_mobile_of_mobile_or_android_witness :
    detectDeviceType "Mozilla/5.0 (Linux; Android 10; SM-T510) Tablet" = .mobile ∧
      TrafficTracker.getDeviceType "Mozilla/5.0 (Linux; Android 10; SM-T510) Tablet" = .mobile :=
  device_mobile_of_mobile_or_android "Mozilla/5.0 (Linux; Android 10; SM-T510) Tablet"
    (Or.inr (by decide))

/-! ## Page views -/

/-- What `saveVisitorData` does to the collector: it sets `lastSaveTime` when it attempts
a write and changes nothing else. -/
theorem saveVisitorData_collector (c : Collector) (env : VisitorEnv) :
    (saveVisitorData c env).collector =
      if (saveVisitorData c env).attempted then { c with lastSaveTime := some env.now } else c := by
  unfold saveVisitorData VisitorSave.attempted visitorFallback
  cases c.consentGiven <;> cases isExcluded (env.toLowerCase env.pathname) <;>
    cases savedRecently c.lastSaveTime env.now <;> cases c.db <;> cases env.primaryOk <;>
    cases env.serverOk 1 <;> cases env.serverOk 2 <;> cases env.storageThrows <;> simp

theorem saveVisitorData_pageViewTracked (c : Collector) (env : VisitorEnv) :
    (saveVisitorData c env).collector.pageViewTracked = c.pageViewTracked := by
  rw [saveVisitorData_collector]
  split <;> rfl

theorem saveVisitorData_visitorData (c : Collector) (env : VisitorEnv) :
    (saveVisitorData c env).collector.visitorData = c.visitorData := by
  rw [saveVisitorData_collector]
  split <;> rfl

/-- After any call of `trackPageView` the flag `pageViewTracked` is set. -/
theorem trackPageView_sets_flag (c : Collector) (w : Window) (env : VisitorEnv) :
    (trackPageView c w env).collector.pageViewTracked = true := by
  unfold trackPageView
  cases h : c.pageViewTracked
  · cases isExcluded (env.toLowerCase env.pathname)
    · simp [saveVisitorData_pageViewTracked]
    · simp
  · simp [h]

/-- With the flag set, any number of calls of `trackPageView` does nothing. -/
theorem trackPageViewCalls_tracked (c : Collector) (w : Window) (envs : List VisitorEnv)
    (h : c.pageViewTracked = true) : trackPageViewCalls c w envs = ⟨c, w, 0, []⟩ := by
  induction envs with
  | nil => rfl
  | cons env rest ih =>
    unfold trackPageViewCalls
    have h1 : trackPageView c w env = ⟨c, w, 0, []⟩ := by
      unfold trackPageView; simp [h]
    simp only [h1, ih, Nat.add_zero, List.append_nil]

/-- C14: within one page load, however often `trackPageView` is called, every call after
the first leaves the collector and `window` unchanged and performs nothing, so that
`saveVisitorData` is invoked from `trackPageView` at most once and `behavior.pageViews` is
incremented at most once. -/
theorem trackPageView_at_most_once (c : Collector) (w : Window) :
    (∀ env rest, trackPageViewCalls c w (env :: rest) = trackPageView c w env) ∧
      ∀ envs, (trackPageViewCalls c w envs).saveCalls ≤ 1 ∧
        (trackPageViewCalls c w envs).collector.visitorData.behavior.pageViews
          ≤ c.visitorData.behavior.pageViews + 1 := by
  have hone : ∀ env, (trackPageView c w env).saveCalls ≤ 1 ∧
      (trackPageView c w env).collector.visitorData.behavior.pageViews
        ≤ c.visitorData.behavior.pageViews + 1 := by
    intro env
    unfold trackPageView
    cases c.pageViewTracked <;> cases isExcluded (env.toLowerCase env.pathname) <;>
      simp [saveVisitorData_visitorData]
  have hfirst : ∀ env rest,
      trackPageViewCalls c w (env :: rest) = trackPageView c w env := by
    intro env rest
    conv_lhs => unfold trackPageViewCalls
    simp only [trackPageViewCalls_tracked _ _ rest (trackPageView_sets_flag c w env),
      Nat.add_zero, List.append_nil]
  refine ⟨hfirst, fun envs => ?_⟩
  cases envs with
  | nil => simp [trackPageViewCalls]
  | cons env rest =>
    rw [hfirst]
    exact hone env

end DataCollector

namespace TrafficTracker

open DataCollector

/-! ## Excluded pages -/

/-- The exclusion test of the tracker is the one of the collector. -/
theorem excluded_eq (currentPath : String) :
    (excludedPages.any fun page => includes currentPath page) = isExcluded currentPath := rfl

/-- C15, as stated, fails: on the excluded page `/thank-you.html` the listeners of the
traffic tracker still send events: a scroll to 30% sends scroll_25, a form submission sends
form_submit, a button click sends button_click and leaving the page sends time_on_page. -/
theorem excluded_page_still_sends_events :
    isExcluded (asciiLower "/thank-you.html") = true ∧
      (scrollListener {} "/thank-you.html" (.fin 30)).2
        = [⟨"scroll_25", "/thank-you.html"⟩] ∧
      submitListener "/thank-you.html" = [⟨"form_submit", "/thank-you.html"⟩] ∧
      clickListener "Home" none = [⟨"button_click", "Home"⟩] ∧
      unloadListener "12" = [⟨"time_on_page", "12 seconds"⟩] := by
  decide

/-- C15 amended: on a page whose lower-cased path contains one of the excluded substrings,
the traffic tracker sends no page_view event (neither from `trackPageView` nor from the
timer of `initTracking`), and the collector counts no page view and attempts no visitor
write from `saveVisitorData`, `trackPageView` or its scroll listener. -/
theorem excluded_page_no_page_view (toLowerCase : String → String) (pathname : String)
    (hex : isExcluded (toLowerCase pathname) = true) :
    trackPageView toLowerCase pathname = [] ∧
      (∀ w, pageViewTimer toLowerCase w pathname = []) ∧
      (∀ (c : Collector) (w : Window) (env : VisitorEnv),
        env.toLowerCase = toLowerCase → env.pathname = pathname →
        (saveVisitorData c env).trace = [] ∧
        (DataCollector.trackPageView c w env).trace = [] ∧
        (DataCollector.trackPageView c w env).saveCalls = 0 ∧
        (DataCollector.trackPageView c w env).collector.visitorData.behavior.pageViews
          = c.visitorData.behavior.pageViews ∧
        ∀ maxScroll p, (DataCollector.scrollListener maxScroll c env p).trace = []) := by
  have h1 : trackPageView toLowerCase pathname = [] := by
    unfold trackPageView
    simp only [excluded_eq, hex, if_true]
  refine ⟨h1, fun w => ?_, fun c w env hl hp => ?_⟩
  · unfold pageViewTimer
    split
    · exact h1
    · rfl
  · have hex1 : isExcluded (env.toLowerCase env.pathname) = true := by rw [hl, hp]; exact hex
    have hsave : ∀ c1 : Collector, (saveVisitorData c1 env).trace = [] := by
      intro c1
      unfold saveVisitorData
      cases c1.consentGiven <;> simp [hex1]
    refine ⟨hsave c, ?_, ?_, ?_, fun maxScroll p => ?_⟩
    · unfold DataCollector.trackPageView
      cases c.pageViewTracked <;> simp [hex1]
    · unfold DataCollector.trackPageView
      cases c.pageViewTracked <;> simp [hex1]
    · unfold DataCollector.trackPageView
      cases c.pageViewTracked <;> simp [hex1]
    · unfold DataCollector.scrollListener
      split
      · exact hsave _
      · rfl

/-- C15 amended, at `/Thank-You.html`: no page_view event is sent. -/
theorem excluded_page_no_page_view_witness :
    trackPageView asciiLower "/Thank-You.html" = [] :=
  (excluded_page_no_page_view asciiLower "/Thank-You.html" (by decide)).1

/-! ## Scroll depth -/

/-- C16, as stated, fails: after a first scroll event at 80% the running maximum is 80%,
and the event reporting 96% then emits one scroll_75 event and no scroll_100 event. -/
theorem scroll_96_after_80_emits_scroll_75 :
    (scrollEvents {} "/p" [.fin 80]).1.maxScroll = .fin 80 ∧
      (scrollListener (scrollEvents {} "/p" [.fin 80]).1 "/p" (.fin 96)).2
        = [⟨"scroll_75", "/p"⟩] ∧
      countAction "scroll_100"
        (scrollListener (scrollEvents {} "/p" [.fin 80]).1 "/p" (.fin 96)).2 = 0 := by
  decide

/-- C16 amended: when the running maximum is 80% and a scroll event reports 96%, that event
emits no scroll_100 event, and every event it emits is of kind scroll_75; the same holds
for any reported percentage in the band from 75 to below 100. -/
theorem scroll_band_75 (st : ScrollState) (pathname : String) (p : Int)
    (h75 : 75 ≤ p) (h100 : p < 100) :
    countAction "scroll_100" (scrollListener st pathname (.fin p)).2 = 0 ∧
      ∀ e ∈ (scrollListener st pathname (.fin p)).2, e = ⟨"scroll_75", pathname⟩ := by
  have hge25 : JsNumber.ge (.fin p) (.fin 25) = true := by simp [JsNumber.ge]; omega
  have hlt50 : JsNumber.lt (.fin p) (.fin 50) = false := by
    simp [JsNumber.lt, JsNumber.gt]; omega
  have hge50 : JsNumber.ge (.fin p) (.fin 50) = true := by simp [JsNumber.ge]; omega
  have hlt75 : JsNumber.lt (.fin p) (.fin 75) = false := by
    simp [JsNumber.lt, JsNumber.gt]; omega
  have hge75 : JsNumber.ge (.fin p) (.fin 75) = true := by simp [JsNumber.ge]; omega
  have hlt100 : JsNumber.lt (.fin p) (.fin 100) = true := by
    simp [JsNumber.lt, JsNumber.gt]; omega
  unfold scrollListener
  cases hgt : JsNumber.gt (.fin p) st.maxScroll
  · simp [countAction]
  · simp [hge25, hlt50, hge50, hlt75, hge75, hlt100, countAction]

/-- C16 amended, at the running maximum 80% and the report 96%. -/
theorem scroll_band_75_witness :
    countAction "scroll_100" (scrollListener ⟨.fin 80, false⟩ "/p" (.fin 96)).2 = 0 ∧
      ∀ e ∈ (scrollListener ⟨.fin 80, false⟩ "/p" (.fin 96)).2, e = ⟨"scroll_75", "/p"⟩ :=
  scroll_band_75 ⟨.fin 80, false⟩ "/p" 96 (by decide) (by decide)

/-- C17 at the failing input: on a fresh page load the scroll positions 50% and 60% emit
scroll_50 twice. -/
theorem scroll_50_emitted_twice :
    (scrollEvents {} "/p" [.fin 50, .fin 60]).2 = [⟨"scroll_50", "/p"⟩, ⟨"scroll_50", "/p"⟩] ∧
      countAction "scroll_50" (scrollEvents {} "/p" [.fin 50, .fin 60]).2 = 2 := by
  decide

/-- A scroll event below 25% on a state whose maximum is below 25% emits nothing and keeps
the maximum below 25% and the latch as it was. -/
theorem scrollListener_below_25 (st : ScrollState) (pathname : String) (m x : Int)
    (hm : st.maxScroll = .fin m) (hm25 : m < 25) (hx : x < 25) :
    (scrollListener st pathname (.fin x)).2 = [] ∧
      (scrollListener st pathname (.fin x)).1.scrollTracked = st.scrollTracked ∧
      ∃ m1, (scrollListener st pathname (.fin x)).1.maxScroll = .fin m1 ∧ m1 < 25 := by
  have hge25 : JsNumber.ge (.fin x) (.fin 25) = false := by simp [JsNumber.ge]; omega
  have hge50 : JsNumber.ge (.fin x) (.fin 50) = false := by simp [JsNumber.ge]; omega
  have hge75 : JsNumber.ge (.fin x) (.fin 75) = false := by simp [JsNumber.ge]; omega
  have hge100 : JsNumber.ge (.fin x) (.fin 100) = false := by simp [JsNumber.ge]; omega
  unfold scrollListener
  cases hgt : JsNumber.gt (.fin x) st.maxScroll
  · simp only [Bool.false_eq_true, if_false]
    exact ⟨trivial, trivial, m, hm, hm25⟩
  · simp only [if_true, hge25, hge50, hge75, hge100, Bool.false_and, Bool.false_eq_true,
      if_false]
    exact ⟨trivial, trivial, x, rfl, hx⟩

/-- Scroll events below 25% followed by one in the band from 25 to below 50, from a state
whose maximum is below 25% and whose latch is open. -/
theorem scrollEvents_first_25 (pathname : String) (low : List Int) (p : Int)
    (hlow : ∀ x ∈ low, x < 25) (h25 : 25 ≤ p) (h50 : p < 50) :
    ∀ (st : ScrollState) (m : Int), st.maxScroll = .fin m → m < 25 → st.scrollTracked = false →
      (scrollEvents st pathname (low.map JsNumber.fin ++ [.fin p])).2
        = [⟨"scroll_25", pathname⟩] := by
  induction low with
  | nil =>
    intro st m hm hm25 htr
    have hgt : JsNumber.gt (.fin p) st.maxScroll = true := by
      rw [hm]; simp [JsNumber.gt]; omega
    have hge25 : JsNumber.ge (.fin p) (.fin 25) = true := by simp [JsNumber.ge]; omega
    have hlt50 : JsNumber.lt (.fin p) (.fin 50) = true := by
      simp [JsNumber.lt, JsNumber.gt]; omega
    simp [scrollEvents, scrollListener, hgt, hge25, hlt50, htr]
  | cons x rest ih =>
    intro st m hm hm25 htr
    have hx : x < 25 := hlow x (List.mem_cons_self x rest)
    obtain ⟨hev, hlatch, m1, hm1, hm125⟩ := scrollListener_below_25 st pathname m x hm hm25 hx
    have hrest := ih (fun y hy => hlow y (List.mem_cons_of_mem x hy))
      (scrollListener st pathname (.fin x)).1 m1 hm1 hm125 (by rw [hlatch]; exact htr)
    simp only [List.map_cons, List.cons_append, scrollEvents, hev, List.nil_append]
    exact hrest

/-- C18: on a fresh page load, scroll percentages all below 25 followed by one percentage
in the band from 25 to below 50 emit exactly one event over the whole sequence, and it is
scroll_25. -/
theorem scroll_25_exactly_once (pathname : String) (low : List Int) (p : Int)
    (hlow : ∀ x ∈ low, x < 25) (h25 : 25 ≤ p) (h50 : p < 50) :
    (scrollEvents {} pathname (low.map JsNumber.fin ++ [.fin p])).2
      = [⟨"scroll_25", pathname⟩] :=
  scrollEvents_first_25 pathname low p hlow h25 h50 {} 0 rfl (by decide) rfl

/-- C18 at the example of the specification: 20% then 30%. -/
theorem scroll_25_exactly_once_witness :
    (scrollEvents {} "/p" ([20].map JsNumber.fin ++ [.fin 30])).2 = [⟨"scroll_25", "/p"⟩] :=
  scroll_25_exactly_once "/p" [20] 30 (by decide) (by decide) (by decide)

/-- C19 at the failing input: with a scrollable height of zero and `scrollY = 10` the
computed percentage is `Infinity`; the scroll listener of the traffic tracker then emits
scroll_100 and raises its maximum to `Infinity`, and the scroll listener of the collector
records `Infinity` as scroll depth and calls `saveVisitorData`. -/
theorem zero_height_scroll_emits_scroll_100 (roundedPercent : Int → Int → Int) :
    scrollPercentOf roundedPercent 10 0 = .posInf ∧
      scrollListener {} "/p" (scrollPercentOf roundedPercent 10 0)
        = (⟨.posInf, false⟩, [⟨"scroll_100", "/p"⟩]) ∧
      ∀ (c : Collector) (env : VisitorEnv),
        (DataCollector.scrollListener (.fin 0) c env
          (scrollPercentOf roundedPercent 10 0)).maxScroll = .posInf ∧
        (DataCollector.scrollListener (.fin 0) c env
          (scrollPercentOf roundedPercent 10 0)).saveCalls = 1 ∧
        (DataCollector.scrollListener (.fin 0) c env
          (scrollPercentOf roundedPercent 10 0)).collector.visitorData.behavior.scrollDepth
          = .posInf := by
  have hp : scrollPercentOf roundedPercent 10 0 = .posInf := by
    simp [scrollPercentOf]
  rw [hp]
  refine ⟨rfl, by decide, fun c env => ?_⟩
  unfold DataCollector.scrollListener
  simp [JsNumber.gt, saveVisitorData_visitorData]

end TrafficTracker

namespace DataCollector

/-! ## Debounce of `saveVisitorData` -/

/-- On a page that is not excluded and under consent, `saveVisitorData` attempts a write
exactly when the debounce test fails. -/
theorem saveVisitorData_attempted (c : Collector) (env : VisitorEnv)
    (hc : c.consentGiven = true) (hex : isExcluded (env.toLowerCase env.pathname) = false) :
    (saveVisitorData c env).attempted = !savedRecently c.lastSaveTime env.now := by
  unfold saveVisitorData VisitorSave.attempted visitorFallback
  cases savedRecently c.lastSaveTime env.now <;> cases c.db <;> cases env.primaryOk <;>
    cases env.serverOk 1 <;> cases env.serverOk 2 <;> cases env.storageThrows <;>
    simp [hc, hex]

/-- With a positive clock the debounce test of the code is the rule of the claim. -/
theorem savedRecently_eq (last : Option Nat) (now : Nat) (hpos : ∀ t, last = some t → 0 < t) :
    (!savedRecently last now) = attemptByClaim last now := by
  cases last with
  | none => rfl
  | some t =>
    have ht : 0 < t := hpos t rfl
    have hne : (t != 0) = true := by simp; omega
    simp only [savedRecently, attemptByClaim, hne, Bool.true_and]
    by_cases h : t + 5000 ≤ now
    · have h1 : ¬ ((now : Int) - (t : Int) < 5000) := by omega
      simp [h, h1]
    · have h1 : (now : Int) - (t : Int) < 5000 := by omega
      simp [h, h1]

/-- The calls of the code follow the rule of the claim, from any state whose last attempt
time is positive. -/
theorem saveVisitorDataCalls_eq (envs : List VisitorEnv) :
    ∀ (c : Collector), c.consentGiven = true →
      (∀ t, c.lastSaveTime = some t → 0 < t) →
      (∀ env ∈ envs, isExcluded (env.toLowerCase env.pathname) = false ∧ 0 < env.now) →
      (saveVisitorDataCalls c envs).1 =
        debounceByClaim c.lastSaveTime (envs.map fun env => env.now) := by
  induction envs with
  | nil => intro c _ _ _; rfl
  | cons env rest ih =>
    intro c hc hpos henv
    obtain ⟨hex, hnow⟩ := henv env (List.mem_cons_self env rest)
    have hatt : (saveVisitorData c env).attempted = attemptByClaim c.lastSaveTime env.now := by
      rw [saveVisitorData_attempted c env hc hex, savedRecently_eq c.lastSaveTime env.now hpos]
    have hcol := saveVisitorData_collector c env
    rw [hatt] at hcol
    simp only [saveVisitorDataCalls, List.map_cons, debounceByClaim, hatt]
    cases hb : attemptByClaim c.lastSaveTime env.now
    · rw [hb] at hcol
      simp only [Bool.false_eq_true, if_false] at hcol ⊢
      rw [hcol]
      rw [ih c hc hpos (fun e he => henv e (List.mem_cons_of_mem env he))]
    · rw [hb] at hcol
      simp only [if_true] at hcol ⊢
      rw [hcol]
      rw [ih { c with lastSaveTime := some env.now } hc
        (by intro t ht; simp only [Option.some.injEq] at ht; omega)
        (fun e he => henv e (List.mem_cons_of_mem env he))]

/-- Under the rule of the claim, successive attempts are at least 5000 ms apart, and the
first attempt is at least 5000 ms after the last one before the calls. -/
theorem debounceByClaim_spaced (times : List Nat) :
    ∀ last : Option Nat,
      List.Chain' (fun a b => a + 5000 ≤ b) (attemptTimes (debounceByClaim last times)) ∧
      ∀ t, last = some t → ∀ a ∈ (attemptTimes (debounceByClaim last times)).head?,
        t + 5000 ≤ a := by
  induction times with
  | nil => intro last; simp [debounceByClaim, attemptTimes]
  | cons now rest ih =>
    intro last
    cases hb : attemptByClaim last now
    · obtain ⟨hchain, hhead⟩ := ih last
      simp only [debounceByClaim, hb, attemptTimes, List.filter_cons, Bool.false_eq_true,
        if_false]
      exact ⟨hchain, hhead⟩
    · obtain ⟨hchain, hhead⟩ := ih (some now)
      simp only [debounceByClaim, hb, attemptTimes, List.filter_cons, if_true, List.map_cons]
      refine ⟨?_, fun t ht a ha => ?_⟩
      · rw [List.chain'_cons']
        exact ⟨fun a ha => hhead now rfl a ha, hchain⟩
      · subst ht
        simp only [attemptByClaim, decide_eq_true_eq] at hb
        simp only [List.head?_cons, Option.mem_def, Option.some.injEq] at ha
        omega

/-- C20: for successive calls of `saveVisitorData` on a page that is not excluded, on a
collector with consent given and no save yet, at positive clock readings: a call attempts
a store write if and only if it is the first call or at least 5000 ms have passed since
the most recent call that attempted one, whatever the outcomes of the writes; hence
successive attempts are at least 5000 ms apart. -/
theorem saveVisitorData_debounce (c : Collector) (envs : List VisitorEnv)
    (hc : c.consentGiven = true) (hfresh : c.lastSaveTime = none)
    (henv : ∀ env ∈ envs, isExcluded (env.toLowerCase env.pathname) = false ∧ 0 < env.now) :
    (saveVisitorDataCalls c envs).1 = debounceByClaim none (envs.map fun env => env.now) ∧
      List.Chain' (fun a b => a + 5000 ≤ b) (attemptTimes (saveVisitorDataCalls c envs).1) := by
  have h := saveVisitorDataCalls_eq envs c hc (by rw [hfresh]; intro t ht; cases ht) henv
  rw [hfresh] at h
  refine ⟨h, ?_⟩
  rw [h]
  exact (debounceByClaim_spaced _ none).1

/-- C20 at five calls at 1000, 3000, 6000, 6500 and 11000 ms, the first write failing: the
calls at 1000, 6000 and 11000 attempt a write, the others are suppressed. -/
theorem saveVisitorData_debounce_witness :
    (saveVisitorDataCalls ((Collector.new "s1").init true true)
        [visitAt 1000 false, visitAt 3000 true, visitAt 6000 true, visitAt 6500 true,
         visitAt 11000 true]).1
      = [(1000, true), (3000, false), (6000, true), (6500, false), (11000, true)] :=
  (saveVisitorData_debounce ((Collector.new "s1").init true true)
    [visitAt 1000 false, visitAt 3000 true, visitAt 6000 true, visitAt 6500 true,
     visitAt 11000 true] rfl rfl
    (by
      intro env he
      simp only [List.mem_cons, List.mem_singleton, List.not_mem_nil, or_false] at he
      rcases he with rfl | rfl | rfl | rfl | rfl <;> decide)).1.trans (by decide)

end DataCollector

namespace DataCollector

/-! ## The in-flight flag and the redirect -/

theorem saveVisitorData_inProgress (c : Collector) (env : VisitorEnv) :
    (saveVisitorData c env).collector.formSubmissionInProgress = c.formSubmissionInProgress := by
  rw [saveVisitorData_collector]
  split <;> rfl

theorem trackPageView_inProgress (c : Collector) (w : Window) (env : VisitorEnv) :
    (trackPageView c w env).collector.formSubmissionInProgress = c.formSubmissionInProgress := by
  unfold trackPageView
  cases c.pageViewTracked <;> cases isExcluded (env.toLowerCase env.pathname) <;>
    simp [saveVisitorData_inProgress]

theorem scrollListener_inProgress (maxScroll : JsNumber) (c : Collector) (env : VisitorEnv)
    (p : JsNumber) :
    (scrollListener maxScroll c env p).collector.formSubmissionInProgress
      = c.formSubmissionInProgress := by
  unfold scrollListener
  split
  · simp [saveVisitorData_inProgress]
  · rfl

/-- The timers set by the promise chain, whatever the settlement. -/
theorem settleChain_eq (s : Settlement) :
    settleChain s = [⟨500, .redirect "thank-you.html"⟩, ⟨2000, .clearInProgress⟩] := by
  cases s <;> rfl

/-- C21: while the in-flight flag is set, `trackFormSubmission` does nothing for any form:
no call of `saveFormSubmission`, no timer, the collector (its `visitorData` and the flag
included) unchanged; no operation other than the firing of the flag-clearing timer takes
the flag down; and that timer is set once, with 2000 ms, by every processed submission,
which itself raises the flag. -/
theorem trackFormSubmission_in_flight (toLowerCase : String → String) (c : Collector)
    (h : c.formSubmissionInProgress = true) :
    (∀ doc form env, trackFormSubmission toLowerCase c doc form env = ⟨c, none, []⟩) ∧
      (∀ op : Operation, (op.run toLowerCase c).formSubmissionInProgress = false →
        op = .timer .clearInProgress) ∧
      (∀ (c0 : Collector) doc form env, c0.formSubmissionInProgress = false →
        (trackFormSubmission toLowerCase c0 doc form env).collector.formSubmissionInProgress
          = true ∧
        ((trackFormSubmission toLowerCase c0 doc form env).timers.filter
          fun t => t.action == .clearInProgress) = [⟨2000, .clearInProgress⟩]) := by
  have hnoop : ∀ doc form env, trackFormSubmission toLowerCase c doc form env = ⟨c, none, []⟩ := by
    intro doc form env
    unfold trackFormSubmission
    simp [h]
  refine ⟨hnoop, fun op hop => ?_, fun c0 doc form env h0 => ?_⟩
  · cases op with
    | trackFormSubmission doc form env =>
      simp only [Operation.run, hnoop] at hop
      rw [h] at hop
      cases hop
    | saveVisitorData env =>
      simp only [Operation.run, saveVisitorData_inProgress] at hop
      rw [h] at hop
      cases hop
    | trackPageView w env =>
      simp only [Operation.run, trackPageView_inProgress] at hop
      rw [h] at hop
      cases hop
    | scroll maxScroll env p =>
      simp only [Operation.run, scrollListener_inProgress] at hop
      rw [h] at hop
      cases hop
    | timer action =>
      cases action with
      | redirect href =>
        simp only [Operation.run, fireTimer] at hop
        rw [h] at hop
        cases hop
      | clearInProgress => rfl
  · unfold trackFormSubmission
    simp only [h0, Bool.false_eq_true, if_false, settleChain_eq]
    exact ⟨trivial, by decide⟩

/-- C21 at a collector that has just processed the enquiry form: a second submission of the
same form changes nothing. -/
theorem trackFormSubmission_in_flight_witness :
    trackFormSubmission asciiLower
        (trackFormSubmission asciiLower ((Collector.new "s1").init true true) {} enquiryForm
          ⟨"t0", fun _ => true, true, {}⟩).collector {} enquiryForm
        ⟨"t1", fun _ => true, true, {}⟩
      = ⟨(trackFormSubmission asciiLower ((Collector.new "s1").init true true) {} enquiryForm
          ⟨"t0", fun _ => true, true, {}⟩).collector, none, []⟩ :=
  (trackFormSubmission_in_flight asciiLower
    (trackFormSubmission asciiLower ((Collector.new "s1").init true true) {} enquiryForm
      ⟨"t0", fun _ => true, true, {}⟩).collector (by decide)).1 {} enquiryForm
    ⟨"t1", fun _ => true, true, {}⟩

/-- C22: a submission that `trackFormSubmission` processes (flag not set) sets the redirect
to `thank-you.html` exactly once, 500 ms after `saveFormSubmission` settles, whether that
promise resolves or rejects. -/
theorem trackFormSubmission_redirects_once (toLowerCase : String → String) (c : Collector)
    (doc : Document) (form : Form) (env : Env) (h : c.formSubmissionInProgress = false) :
    (trackFormSubmission toLowerCase c doc form env).timers
        = [⟨500, .redirect "thank-you.html"⟩, ⟨2000, .clearInProgress⟩] ∧
      redirectsTo "thank-you.html" (trackFormSubmission toLowerCase c doc form env).timers = 1 ∧
      ∃ payload r, (trackFormSubmission toLowerCase c doc form env).saved = some (payload, r) ∧
        (r.settlement = .resolved ∨ r.settlement = .rejected) := by
  unfold trackFormSubmission
  simp only [h, Bool.false_eq_true, if_false, settleChain_eq]
  refine ⟨trivial, by decide, _, _, rfl, ?_⟩
  cases (saveFormSubmission _ env _).settlement
  · exact Or.inl rfl
  · exact Or.inr rfl

/-- C22 at a submission whose delivery rejects (no store reachable, local storage full). -/
theorem trackFormSubmission_redirects_once_witness :
    ((trackFormSubmission asciiLower ((Collector.new "s1").init false false) {} enquiryForm
        ⟨"t0", fun _ => false, false, { setThrows := true }⟩).saved.map
        fun x => x.2.settlement) = some .rejected ∧
      redirectsTo "thank-you.html"
        (trackFormSubmission asciiLower ((Collector.new "s1").init false false) {} enquiryForm
          ⟨"t0", fun _ => false, false, { setThrows := true }⟩).timers = 1 :=
  ⟨by decide,
    (trackFormSubmission_redirects_once asciiLower ((Collector.new "s1").init false false) {}
      enquiryForm ⟨"t0", fun _ => false, false, { setThrows := true }⟩ rfl).2.1⟩

/-! ## What `saveVisitorData` persists -/

/-- C23 at the failing input: after the enquiry form has been processed, `visitorData`
holds the name and phone of the form; when no store is configured and both calls of the
local server fail, `saveVisitorData` writes the whole `visitorData`, name and phone
included, to local storage. -/
theorem saveVisitorData_last_resort_keeps_contact :
    (trackFormSubmission asciiLower ((Collector.new "s1").init false false) {} enquiryForm
        ⟨"t0", fun _ => false, true, {}⟩).collector.visitorData.name = some "Asha" ∧
      (saveVisitorData
        (trackFormSubmission asciiLower ((Collector.new "s1").init false false) {} enquiryForm
          ⟨"t0", fun _ => false, true, {}⟩).collector (visitAt 1000 false)).trace
        = [.serverWrite ⟨"s1", "t", none, none, none⟩, .serverWrite ⟨"s1", "t", none, none, none⟩,
           .storageWrite
             { sessionId := "s1", name := some "Asha", phone := some "9876543210",
               behavior := { formInteractions := 1 } }] := by
  decide

/-- The records `saveVisitorData` sends to the primary store and to the local server carry
no name, phone or email. -/
theorem saveVisitorData_remote_records (c : Collector) (env : VisitorEnv) :
    ∀ e ∈ (saveVisitorData c env).trace, ∀ r : VisitorRecord,
      (e = VisitorEffect.primaryWrite r ∨ e = VisitorEffect.serverWrite r) →
      r.name = none ∧ r.phone = none ∧ r.email = none := by
  unfold saveVisitorData visitorFallback
  cases c.consentGiven <;> cases isExcluded (env.toLowerCase env.pathname) <;>
    cases savedRecently c.lastSaveTime env.now <;> cases c.db <;> cases env.primaryOk <;>
    cases env.serverOk 1 <;> cases env.serverOk 2 <;> cases env.storageThrows <;>
    simp

/-! ## Tablets -/

/-- C24: the classifier returns tablet exactly for user agents that contain "tablet" up to
case and none of the mobile tokens up to case; every user agent containing "iPad" is
classified mobile; and dropping the iPad alternative from the tablet pattern changes no
result. The same holds for `getDeviceType` of the traffic tracker. -/
theorem device_tablet_iff (userAgent : String) :
    (detectDeviceType userAgent = .tablet ↔
      includes (asciiLower userAgent) "tablet" = true ∧
        ∀ token ∈ mobileTokens,
          includes (asciiLower userAgent) (asciiLower token) = false) ∧
      (includes userAgent "iPad" = true → detectDeviceType userAgent = .mobile) ∧
      detectDeviceType userAgent =
        (if testIgnoreCase mobileTokens userAgent then .mobile
         else if testIgnoreCase ["Tablet"] userAgent then .tablet else .desktop) ∧
      TrafficTracker.getDeviceType userAgent = detectDeviceType userAgent := by
  have e1 : asciiLower "Mobile" = "mobile" := by decide
  have e2 : asciiLower "Android" = "android" := by decide
  have e3 : asciiLower "iPhone" = "iphone" := by decide
  have e4 : asciiLower "iPad" = "ipad" := by decide
  have e5 : asciiLower "iPod" = "ipod" := by decide
  have e6 : asciiLower "BlackBerry" = "blackberry" := by decide
  have e7 : asciiLower "IEMobile" = "iemobile" := by decide
  have e8 : asciiLower "Opera Mini" = "opera mini" := by decide
  have e9 : asciiLower "Tablet" = "tablet" := by decide
  refine ⟨?_, ?_, ?_, rfl⟩
  · unfold detectDeviceType testIgnoreCase
    simp only [mobileTokens, tabletTokens, List.any_cons, List.any_nil, Bool.or_false,
      List.mem_cons, List.mem_singleton, List.not_mem_nil, or_false, forall_eq_or_imp,
      forall_eq, e1, e2, e3, e4, e5, e6, e7, e8, e9]
    generalize asciiLower userAgent = t
    cases includes t "mobile" <;> cases includes t "android" <;> cases includes t "iphone" <;>
      cases includes t "ipad" <;> cases includes t "ipod" <;> cases includes t "blackberry" <;>
      cases includes t "iemobile" <;> cases includes t "opera mini" <;>
      cases includes t "tablet" <;> simp
  · intro h
    have ht : testIgnoreCase mobileTokens userAgent = true :=
      testIgnoreCase_of_includes mobileTokens userAgent "iPad" (by simp [mobileTokens]) h
    unfold detectDeviceType
    simp [ht]
  · unfold detectDeviceType testIgnoreCase
    simp only [mobileTokens, tabletTokens, List.any_cons, List.any_nil, Bool.or_false,
      e1, e2, e3, e4, e5, e6, e7, e8, e9]
    generalize asciiLower userAgent = t
    cases includes t "mobile" <;> cases includes t "android" <;> cases includes t "iphone" <;>
      cases includes t "ipad" <;> cases includes t "ipod" <;> cases includes t "blackberry" <;>
      cases includes t "iemobile" <;> cases includes t "opera mini" <;>
      cases includes t "tablet" <;> simp

/-- C24 at the user agent of an iPad: it is classified mobile, by both scripts. -/
theorem device_tablet_iff_witness :
    detectDeviceType "Mozilla/5.0 (iPad; CPU OS 13_0 like Mac OS X)" = .mobile ∧
      TrafficTracker.getDeviceType "Mozilla/5.0 (iPad; CPU OS 13_0 like Mac OS X)" = .mobile :=
  ⟨(device_tablet_iff "Mozilla/5.0 (iPad; CPU OS 13_0 like Mac OS X)").2.1 (by decide),
    by decide⟩

end DataCollector
